import Mathlib

/-!
Verification of the LDraw importer (src/ldraw.py) against its specification.

The Python source is shallowly embedded below.  Modelling conventions:

* Python strings are Lean `String` (ASCII inputs); `str.split()`,
  `str.strip()`, `str.lower()`, `str.find` are modelled by executable
  helpers defined here.
* Python floats are modelled as rationals (`Rat`); `float(tok)` is
  `pyFloat tok`, returning `none` exactly when Python raises `ValueError`
  (decimal forms with optional sign, integer and fractional parts are
  recognised; exponent and inf and nan forms are not used by the claims and
  are not modelled).
* Python exceptions are modelled with `Except PyErr`; an uncaught
  exception is a `.error` result that propagates to the caller.
* Blender data blocks (`bpy.data.materials`, `bpy.data.objects`) are
  modelled as association lists held in the global import state `St`;
  a material reference is modelled by the material's (unique) name.
* File handles are modelled by the list of the file's raw lines, each
  keeping its trailing newline exactly as Python's file iteration yields
  them, and a filesystem is an association list from path to lines.
* An uncaught exception discards, with the whole run, the state updates
  made before it; no property below observes state after an abort, and
  the one caught exception of the source (the ValueError around poly)
  keeps its partial bmesh state explicitly.
* The operator plumbing (main, the Blender operator class, scene
  linking and the lamp datablock parameters) is host glue outside the
  properties below; readFile and its callees are modelled in full.
-/

namespace LDraw

/-- Errors corresponding to Python exceptions that the source can raise. -/
inductive PyErr where
  | valueError (msg : String)
  | indexError
  | keyError (k : String)
  | attributeError
  | assertionError
  | recursionError
  deriving Repr, DecidableEq

/-!
Rational arithmetic.  Mathlib's `Rat` operations are irreducible and so
do not evaluate inside the kernel; the model instead uses this plain
fraction type (numerator over a positive denominator — every operation
below keeps denominators positive; equality of results in the theorems
is equality of the computed representations).
-/

/-- A rational value: Python floats are modelled exactly by fractions. -/
structure Q where
  num : Int
  den : Int
  deriving Repr, DecidableEq

instance (n : Nat) : OfNat Q n := ⟨⟨(n : Int), 1⟩⟩

/-- Embed an integer. -/
def qofInt (n : Int) : Q := ⟨n, 1⟩

/-- Embed a natural number. -/
def qofNat (n : Nat) : Q := ⟨(n : Int), 1⟩

instance : Add Q := ⟨fun a b => ⟨a.num * b.den + b.num * a.den, a.den * b.den⟩⟩

instance : Mul Q := ⟨fun a b => ⟨a.num * b.num, a.den * b.den⟩⟩

instance : Sub Q := ⟨fun a b => ⟨a.num * b.den - b.num * a.den, a.den * b.den⟩⟩

instance : Neg Q := ⟨fun a => ⟨-a.num, a.den⟩⟩

instance : Div Q :=
  ⟨fun a b =>
    if 0 ≤ b.num then ⟨a.num * b.den, a.den * b.num⟩
    else ⟨-(a.num * b.den), a.den * -b.num⟩⟩

/-- Natural power. -/
def qpow (a : Q) : Nat → Q
  | 0 => 1
  | n + 1 => a * qpow a n

instance : HPow Q Nat Q := ⟨qpow⟩

/-- Comparison (sound because denominators stay positive). -/
def qle (a b : Q) : Bool := a.num * b.den ≤ b.num * a.den

/-- Value equality of fractions (representation-independent). -/
def qeqv (a b : Q) : Bool := a.num * b.den = b.num * a.den

/-- The clamp of a value to the interval from 0 to 1, as the spec words
it; an interior value is returned unchanged. -/
def clamp01 (x : Q) : Q :=
  if qle 0 x then (if qle x 1 then x else 1) else 0

/-!
String helpers.  Several stdlib string functions do not reduce inside
the kernel (their definitions are position-based with well-founded
recursion), so the Python string operations are modelled directly on
character lists.
-/

/-- Python whitespace test for ASCII input. -/
def isWs (c : Char) : Bool := c = ' ' ∨ c = '\t' ∨ c = '\n' ∨ c = '\r'

/-- Characters of the longest whitespace prefix removed. -/
def dropWsLead : List Char → List Char
  | [] => []
  | c :: rest => if isWs c then dropWsLead rest else c :: rest

/-- Python `str.strip()`. -/
def pyStrip (s : String) : String :=
  String.mk ((dropWsLead (dropWsLead s.data).reverse).reverse)

/-- Lowercase one ASCII character. -/
def lowerChar (c : Char) : Char :=
  if 'A' ≤ c ∧ c ≤ 'Z' then Char.ofNat (c.toNat + 32) else c

/-- Uppercase one ASCII character. -/
def upperChar (c : Char) : Char :=
  if 'a' ≤ c ∧ c ≤ 'z' then Char.ofNat (c.toNat - 32) else c

/-- Python `str.lower()` for ASCII input. -/
def pyLower (s : String) : String := String.mk (s.data.map lowerChar)

/-- Python `str.upper()` for ASCII input. -/
def pyUpper (s : String) : String := String.mk (s.data.map upperChar)

/-- Python slicing `s[:n]`. -/
def pyTake (s : String) (n : Nat) : String := String.mk (s.data.take n)

/-- Python slicing `s[n:]`. -/
def pyDrop (s : String) (n : Nat) : String := String.mk (s.data.drop n)

/-- Python `s.startswith(p)`. -/
def pyStartsWith (s p : String) : Bool := p.data.isPrefixOf s.data

/-- Python `s.replace(c, d)` for single characters. -/
def pyReplaceChar (s : String) (c d : Char) : String :=
  String.mk (s.data.map (fun x => if x = c then d else x))

/-- Python `s[0]`; files never yield an empty line, so the default on an
empty string is never observed. -/
def pyFront (s : String) : Char := s.data.headD 'A'

/-- Split a character list at every occurrence of the character (empty
pieces kept, as Python `str.split(sep)`). -/
def splitOnCharAux (c : Char) : List Char → List Char → List (List Char)
  | [], acc => [acc.reverse]
  | d :: rest, acc =>
    if d = c then acc.reverse :: splitOnCharAux c rest []
    else splitOnCharAux c rest (d :: acc)

/-- Split a string at every occurrence of the character. -/
def splitOnChar (s : String) (c : Char) : List (List Char) :=
  splitOnCharAux c s.data []

/-- Python `str.split()` with no separator: split on whitespace runs and
drop empty pieces. -/
def pysplit (s : String) : List String :=
  ((splitOnCharAux ' ' (s.data.map (fun c => if isWs c then ' ' else c)) []).filter
    (fun t => ¬ t.isEmpty)).map String.mk

/-- First index of character c in s at position ≥ start, as Python
`str.find(c, start)`: -1 when absent. -/
def pyFindAux (cs : List Char) (c : Char) (i : Nat) (start : Nat) : Int :=
  match cs with
  | [] => -1
  | d :: rest =>
    if i ≥ start ∧ d = c then (i : Int)
    else pyFindAux rest c (i + 1) start

/-- Python `line.find(c, start)` for a single character. -/
def pyFind (s : String) (c : Char) (start : Nat) : Int :=
  pyFindAux s.data c 0 start

/-- The command token, as `line[:max(line.find(' '), 1)]` in `readLine`
(the line has already been stripped and is nonempty there). -/
def commandOf (line : String) : String :=
  pyTake line (max (pyFind line ' ' 0) 1).toNat

/-- Value of a list of decimal digit characters; `none` if empty or if a
non-digit occurs. -/
def natOfDigits : List Char → Option Nat
  | [] => none
  | cs => go cs 0
where
  go : List Char → Nat → Option Nat
    | [], acc => some acc
    | c :: rest, acc =>
      if c.isDigit then go rest (acc * 10 + (c.toNat - 48)) else none

/-- Digits value where the empty string counts as 0 (used for the parts of
a decimal fraction around the dot). -/
def digitsVal : List Char → Option Nat
  | [] => some 0
  | c :: rest => do
    let v ← digitsVal rest
    if c.isDigit then some ((c.toNat - 48) * 10 ^ rest.length + v) else none

/-- Python `float(tok)` on plain decimal forms, as a rational; `none`
models `ValueError`.  Handles an optional sign, "12", "1.5", "1." and
".5"; exponent, inf and nan forms are not modelled (unused here). -/
def pyFloat (s : String) : Option Q :=
  let (sign, body) :=
    if pyStartsWith s "-" then ((⟨-1, 1⟩ : Q), pyDrop s 1)
    else if pyStartsWith s "+" then ((1 : Q), pyDrop s 1)
    else ((1 : Q), s)
  match splitOnChar body '.' with
  | [ip] =>
    (natOfDigits ip).map (fun n => sign * qofNat n)
  | [ip, fp] =>
    if ip.isEmpty ∧ fp.isEmpty then none
    else do
      let iv ← digitsVal ip
      let fv ← digitsVal fp
      pure (sign * (qofNat iv + qofNat fv / (10 : Q) ^ fp.length))
  | _ => none

/-- Python `int(tok)`: optional sign and decimal digits. -/
def pyInt (s : String) : Option Int :=
  if pyStartsWith s "-" then (natOfDigits (s.data.drop 1)).map (fun n => -(n : Int))
  else if pyStartsWith s "+" then (natOfDigits (s.data.drop 1)).map (fun n => (n : Int))
  else (natOfDigits s.data).map (fun n => (n : Int))

/-- Python `tok.isdigit()`: nonempty and all decimal digits. -/
def pyIsDigit (s : String) : Bool := s ≠ "" ∧ s.data.all Char.isDigit

/-- Value of one hex digit. -/
def hexDigitVal (c : Char) : Option Nat :=
  if c.isDigit then some (c.toNat - 48)
  else if 'a' ≤ c ∧ c ≤ 'f' then some (c.toNat - 97 + 10)
  else if 'A' ≤ c ∧ c ≤ 'F' then some (c.toNat - 65 + 10)
  else none

/-- Python `int(s, 16)`: nonempty hex digit string. -/
def pyHex (s : String) : Option Nat :=
  match s.data with
  | [] => none
  | cs => go cs 0
where
  go : List Char → Nat → Option Nat
    | [], acc => some acc
    | c :: rest, acc => do
      let v ← hexDigitVal c
      go rest (acc * 16 + v)

/-- Does hay contain needle as a substring (Python `needle in hay`)? -/
def containsSubstr (hay needle : String) : Bool :=
  (List.range (hay.data.length + 1)).any
    (fun i => needle.data.isPrefixOf (hay.data.drop i))

/-- POSIX `os.path.join` of two components. -/
def pjoin (a b : String) : String := a ++ "/" ++ b

/-- POSIX `os.path.join` of three components. -/
def pjoin3 (a b c : String) : String := a ++ "/" ++ b ++ "/" ++ c

/-- `os.path.split(p)[1]`: the part after the last slash. -/
def basename (s : String) : String :=
  (((splitOnChar s '/').map String.mk).getLastD s)

/-- `os.path.splitext(p)[1]`: the extension from the last dot of the
basename, where leading dots of the basename do not start an extension. -/
def splitextExt (s : String) : String :=
  let b := basename s
  let lead := b.data.takeWhile (fun c => c = '.')
  let rest : List Char := b.data.drop lead.length
  match go rest with
  | none => ""
  | some i => String.mk (rest.drop i)
where
  /-- Index of the last dot in the list, if any. -/
  go : List Char → Option Nat
    | [] => none
    | c :: rest =>
      match go rest with
      | some i => some (i + 1)
      | none => if c = '.' then some 0 else none

/-- Association-list lookup (Python `d[k]` and `k in d`). -/
def getAssoc {α : Type} [DecidableEq α] {β : Type} :
    List (α × β) → α → Option β
  | [], _ => none
  | (k, v) :: rest, key => if key = k then some v else getAssoc rest key

/-- Association-list update, replacing in place like a Python dict
assignment (insertion order of a fresh key is at the end). -/
def setAssoc {α : Type} [DecidableEq α] {β : Type} :
    List (α × β) → α → β → List (α × β)
  | [], key, v => [(key, v)]
  | (k, w) :: rest, key, v =>
    if key = k then (k, v) :: rest else (k, w) :: setAssoc rest key v

/-- Winding constant CW from the source. -/
def CW : Nat := 0

/-- Winding constant CCW from the source. -/
def CCW : Nat := 1

/-- The per-scope BFC state (class BFCContext of the source). -/
structure BFCContext where
  localCull : Bool
  winding : Nat
  invertNext : Bool
  certified : Option Bool
  accumCull : Bool
  accumInvert : Bool
  deriving Repr, DecidableEq

namespace BFCContext

/-- The constructor call BFCContext(other) with copy=False: a fresh scope
derived from an optional parent scope.  In Python, `other.certified` is
truthy exactly when it is True (None and False are falsy). -/
def fresh (other : Option BFCContext) : BFCContext :=
  match other with
  | some o =>
    if o.certified = some true then
      { localCull := true, winding := CCW, invertNext := false,
        certified := some true,
        accumCull := o.accumCull && o.localCull,
        accumInvert := xor o.accumInvert o.invertNext }
    else
      { localCull := true, winding := CCW, invertNext := false,
        certified := none, accumCull := false, accumInvert := false }
  | none =>
    { localCull := true, winding := CCW, invertNext := false,
      certified := none, accumCull := false, accumInvert := false }

/-- The constructor call BFCContext(other, True): a by-value copy of every
field. -/
def copy (o : BFCContext) : BFCContext :=
  { localCull := o.localCull, winding := o.winding,
    invertNext := o.invertNext, certified := o.certified,
    accumCull := o.accumCull, accumInvert := o.accumInvert }

end BFCContext

/-- Key of the MATERIALS dictionary: the source keeps `int(code)` keys for
decimal codes and raw string keys for direct-color tokens. -/
inductive MatId where
  | num (n : Int)
  | str (s : String)
  deriving Repr, DecidableEq

/-- A Blender material datablock, restricted to the parameters
the importer computes from a `!COLOUR` line and reads back elsewhere
(diffuse color, alpha, emit).  The purely visual finish settings
(mirror, specular, textures and so on) have no observable effect on the
parsed scene graph and are not modelled. -/
structure Material where
  name : String
  diffuse : Q × Q × Q
  alpha : Q
  emit : Q
  deriving Repr, DecidableEq

/-- Function hex2rgb of the source: parse a hex RGB string (an optional
leading hash sign) into three components scaled by 1/255.  A slice too
short or containing a non-hex digit raises `ValueError` as in Python
(`int('', 16)` included); indexing `hexColor[0]` of an empty string
raises `IndexError`. -/
def hex2rgb (hexColor0 : String) : Except PyErr (Q × Q × Q) := do
  if hexColor0.data.isEmpty then throw .indexError
  let hexColor := if pyFront hexColor0 = '#' then pyDrop hexColor0 1 else hexColor0
  let toV : String → Except PyErr Q := fun s =>
    match pyHex s with
    | some n => pure (qofNat n / 255)
    | none => throw (.valueError s)
  let r ← toV (pyTake (pyDrop hexColor 0) 2)
  let g ← toV (pyTake (pyDrop hexColor 2) 2)
  let b ← toV (pyTake (pyDrop hexColor 4) 2)
  pure (r, g, b)

/-- Function genDict of the source: for every list element that is one of
the keys, map it to the following element (a key in last position raises
`IndexError` from `ls[idx+1]`; a repeated key keeps the last value). -/
def genDict : List String → List String → Except PyErr (List (String × String))
  | [], _ => pure []
  | v :: rest, keys =>
    if v ∈ keys then
      match rest with
      | [] => throw .indexError
      | w :: _ => do
        let d ← genDict rest keys
        pure (setAssoc d v w)
    else genDict rest keys

/-- The process-wide import state: the Blender material datablocks
(`bpy.data.materials`, keyed by unique name), the MATERIALS code table,
the Blender object datablocks (`bpy.data.objects`), the IGNOREOBJECTS
set, the partsCache memoization set, and the warnings issued so far. -/
structure StPre where
  dataMaterials : List (String × Material)
  materials : List (MatId × String)
  ignoreObjects : List String
  partsCache : List String
  warnings : List String
  deriving Repr, DecidableEq

/-- The finish-keyword scan at the end of createMaterial.  The CHROME,
PEARLESCENT, RUBBER, MATTE_METALLIC and METAL branches only set
unmodelled shading parameters; the MATERIAL branch can raise on its
required fields (VALUE, FRACTION, and SIZE or MINSIZE with MAXSIZE), so
those accesses are reproduced; the alpha-driven transparency branches
raise nothing. -/
def materialFinishScan (line : List String) : Except PyErr Unit :=
  if "CHROME" ∈ line ∨ "PEARLESCENT" ∈ line ∨ "RUBBER" ∈ line ∨
     "MATTE_METALLIC" ∈ line ∨ "METAL" ∈ line then
    pure ()
  else if "MATERIAL" ∈ line then do
    let materialLine := line.drop (line.indexOf "MATERIAL" + 1)
    if "GLITTER" ∈ materialLine ∨ "SPECKLE" ∈ materialLine then do
      let materialDict ← genDict materialLine
        ["VALUE", "FRACTION", "SIZE", "MINSIZE", "MAXSIZE"]
      let v ←
        match getAssoc materialDict "VALUE" with
        | some v => pure v
        | none => throw (.keyError "VALUE")
      let _ ← hex2rgb v
      let fracStr ←
        match getAssoc materialDict "FRACTION" with
        | some v => pure v
        | none => throw (.keyError "FRACTION")
      let _ ←
        match pyFloat fracStr with
        | some q => pure q
        | none => throw (.valueError fracStr)
      match getAssoc materialDict "SIZE" with
      | some s =>
        match pyFloat s with
        | some _ => pure ()
        | none => throw (.valueError s)
      | none => do
        let mn ←
          match getAssoc materialDict "MINSIZE" with
          | some v => pure v
          | none => throw (.keyError "MINSIZE")
        let mx ←
          match getAssoc materialDict "MAXSIZE" with
          | some v => pure v
          | none => throw (.keyError "MAXSIZE")
        match pyInt mn, pyInt mx with
        | some _, some _ => pure ()
        | none, _ => throw (.valueError mn)
        | _, none => throw (.valueError mx)
    else pure ()
  else pure ()

/-- Function createMaterial of the source, on the modelled material
parameters.  Fields read from lineDict: CODE (required, `KeyError` when
absent), VALUE (required), optional ALPHA (default 255) and LUMINANCE
(default 0).  The MATERIAL block is scanned exactly for the error
behavior of its required fields; its texture output is not modelled. -/
def createMaterial (name : String) (line : List String)
    (lineDict : List (String × String)) (st : StPre) :
    Except PyErr (String × StPre) := do
  let mat0 : Material :=
    match getAssoc st.dataMaterials name with
    | some m => m
    | none => { name := name, diffuse := (0, 0, 0), alpha := 1, emit := 0 }
  let codeStr ←
    match getAssoc lineDict "CODE" with
    | some c => pure c
    | none => throw (.keyError "CODE")
  let materialId : MatId :=
    if pyIsDigit codeStr then .num ((pyInt codeStr).getD 0) else .str codeStr
  let materials := setAssoc st.materials materialId name
  let valueStr ←
    match getAssoc lineDict "VALUE" with
    | some v => pure v
    | none => throw (.keyError "VALUE")
  let value ← hex2rgb valueStr
  let alphaInt ←
    match getAssoc lineDict "ALPHA" with
    | some s =>
      match pyInt s with
      | some a => pure a
      | none => throw (.valueError s)
    | none => pure 255
  let lumInt ←
    match getAssoc lineDict "LUMINANCE" with
    | some s =>
      match pyInt s with
      | some a => pure a
      | none => throw (.valueError s)
    | none => pure 0
  let mat : Material :=
    { mat0 with diffuse := value, alpha := qofInt alphaInt / 255,
                emit := qofInt lumInt / 127 }
  let _ ← materialFinishScan line
  pure (name, { st with dataMaterials := setAssoc st.dataMaterials name mat,
                        materials := materials })

/-- Function colorReference of the source: resolve a color token to the
pair (materialId, material-name).  Codes 16 and 24 return a `none`
material before any table lookup; a stored decimal code resolves through
MATERIALS; an unknown decimal code warns; a direct-color token creates
(or reuses) a one-off material; anything else warns. -/
def colorReference (s : String) (st : StPre) :
    Except PyErr ((Option Int × Option String) × StPre) := do
  if pyIsDigit s then
    let materialId := (pyInt s).getD 0
    if materialId = 16 ∨ materialId = 24 then
      pure ((some materialId, none), st)
    else
      match getAssoc st.materials (.num materialId) with
      | some mname => pure ((some materialId, some mname), st)
      | none =>
        pure ((none, none),
          { st with warnings :=
              st.warnings ++ ["Undefined color " ++ s] })
  else if pyStartsWith s "0x2" then
    match getAssoc st.materials (.str s) with
    | some mname => pure ((none, some mname), st)
    | none => do
      let (mname, st') ← createMaterial s []
        [("VALUE", pyDrop s 3), ("CODE", s)] st
      pure ((none, some mname), st')
  else
    pure ((none, none),
      { st with warnings :=
          st.warnings ++ ["Malformed color reference: " ++ s] })

/-- One step of the option loop in the BFC branch of lineType0.  The
Python `assert` statements are modelled as fatal `AssertionError`s. -/
def processBFCOption (bfc : BFCContext) (option : String) :
    Except PyErr BFCContext :=
  if option = "CERTIFY" then
    if bfc.certified = none ∨ bfc.certified = some true then
      pure { bfc with certified := some true }
    else throw .assertionError
  else if option = "NOCERTIFY" then
    if bfc.certified = some true then throw .assertionError
    else pure { bfc with certified := some false }
  else if option = "CLIP" then pure { bfc with localCull := true }
  else if option = "NOCLIP" then pure { bfc with localCull := false }
  else if option = "CCW" then
    pure { bfc with winding := if bfc.accumInvert then CW else CCW }
  else if option = "CW" then
    pure { bfc with winding := if bfc.accumInvert then CCW else CW }
  else if option = "INVERTNEXT" then pure { bfc with invertNext := true }
  else pure bfc

/-- The option loop of the BFC branch, left to right. -/
def processBFCOptions (bfc : BFCContext) : List String →
    Except PyErr BFCContext
  | [] => pure bfc
  | o :: rest => do
    let bfc' ← processBFCOption bfc o
    processBFCOptions bfc' rest

/-- A vertex position. -/
abbrev Vec3 : Type := Q × Q × Q

/-- A 4x4 matrix as a list of rows (mathutils.Matrix). -/
abbrev Mat4 : Type := List (List Q)

/-- The identity matrix mathutils.Matrix(). -/
def mat4Identity : Mat4 := [[1,0,0,0],[0,1,0,0],[0,0,1,0],[0,0,0,1]]

/-- Matrix product (Blender 2.7 uses the star operator for this). -/
def mat4Mul (a b : Mat4) : Mat4 :=
  a.map (fun row =>
    (List.range 4).map (fun j =>
      (List.range 4).foldl
        (fun acc k => acc + row.getD k 0 * (b.getD k []).getD j 0) 0))

/-- Apply a 4x4 matrix to a position (x, y, z, 1). -/
def mat4Apply (m : Mat4) (v : Vec3) : Vec3 :=
  let app := fun (row : List Q) =>
    row.getD 0 0 * v.1 + row.getD 1 0 * v.2.1 + row.getD 2 0 * v.2.2 +
      row.getD 3 0
  (app (m.getD 0 []), app (m.getD 1 []), app (m.getD 2 []))

/-- mathutils.Matrix.Scale(f, 4): uniform scale of the three axes. -/
def mat4Scale (f : Q) : Mat4 := [[f,0,0,0],[0,f,0,0],[0,0,f,0],[0,0,0,1]]

/-- DEFAULTMAT of the source: Scale(0.025, 4) times Rotation(-pi/2, 4, X).
The rotation entries are exact here where Python floats carry a
negligible rounding of cos(pi/2). -/
def DEFAULTMAT : Mat4 :=
  [[⟨1, 40⟩, 0, 0, 0], [0, 0, ⟨1, 40⟩, 0], [0, ⟨-1, 40⟩, 0, 0], [0, 0, 0, 1]]

/-- THRESHOLD of the source. -/
def THRESHOLD : Q := ⟨1, 10000⟩

/-- Function matrixEqual of the source; note the one-sided comparison
`a[i][j] - b[i][j] > threshold` of the original. -/
def matrixEqual (a b : Mat4) (threshold : Q) : Bool :=
  if (a.headD []).length ≠ (b.headD []).length then false
  else
    (List.range a.length).all (fun i =>
      (List.range ((a.getD i []).length)).all (fun j =>
        qle ((a.getD i []).getD j 0 - (b.getD i []).getD j 0) threshold))

/-- The reference matrix of a type-1 line, rows as assigned in
lineType1 (translation in the last column). -/
def mkRefMatrix (x y z a b c d e f g h i : Q) : Mat4 :=
  [[a, b, c, x], [d, e, f, y], [g, h, i, z], [0, 0, 0, 1]]

/-- The link mode of a Blender material slot. -/
inductive SlotLink where
  | dataLink
  | objectLink
  deriving Repr, DecidableEq

/-- A material slot: an optional material (by unique datablock name) and
its link mode. -/
structure MatSlot where
  material : Option String
  link : SlotLink
  deriving Repr, DecidableEq

/-- A mesh face: vertex indices into the owning mesh, the material slot
index, and the smooth flag. -/
structure Face where
  verts : List Nat
  materialIndex : Nat
  smooth : Bool
  deriving Repr, DecidableEq

/-- A mesh (also standing for an in-progress bmesh). -/
structure Mesh where
  verts : List Vec3
  faces : List Face
  deriving Repr, DecidableEq

/-- The empty mesh. -/
def emptyMesh : Mesh := { verts := [], faces := [] }

/-- Kind of a Blender object created by the importer. -/
inductive ObjKind where
  | meshKind
  | lampKind
  deriving Repr, DecidableEq

/-- A Blender object: name, kind, the ldrawInheritsColor flag, material
slots, mesh data, local matrix and parented children. -/
inductive Obj where
  | mk (name : String) (kind : ObjKind) (ldrawInheritsColor : Bool)
       (materialSlots : List MatSlot) (mesh : Mesh) (matrixLocal : Mat4)
       (children : List Obj) : Obj
  deriving Repr

/-- Name of an object. -/
def Obj.name : Obj → String
  | .mk n _ _ _ _ _ _ => n

/-- Kind of an object. -/
def Obj.kind : Obj → ObjKind
  | .mk _ k _ _ _ _ _ => k

/-- The ldrawInheritsColor flag of an object. -/
def Obj.ldrawInheritsColor : Obj → Bool
  | .mk _ _ b _ _ _ _ => b

/-- Material slots of an object. -/
def Obj.materialSlots : Obj → List MatSlot
  | .mk _ _ _ s _ _ _ => s

/-- Mesh data of an object. -/
def Obj.mesh : Obj → Mesh
  | .mk _ _ _ _ m _ _ => m

/-- Local matrix of an object. -/
def Obj.matrixLocal : Obj → Mat4
  | .mk _ _ _ _ _ m _ => m

/-- Children of an object. -/
def Obj.children : Obj → List Obj
  | .mk _ _ _ _ _ _ c => c

/-- Replace the material slots of an object. -/
def Obj.setSlots : Obj → List MatSlot → Obj
  | .mk n k b _ m x c, s => .mk n k b s m x c

/-- Replace the mesh of an object. -/
def Obj.setMesh : Obj → Mesh → Obj
  | .mk n k b s _ x c, m => .mk n k b s m x c

/-- Replace the local matrix of an object. -/
def Obj.setMatrix : Obj → Mat4 → Obj
  | .mk n k b s m _ c, x => .mk n k b s m x c

/-- Set the ldrawInheritsColor flag of an object. -/
def Obj.setInherits : Obj → Bool → Obj
  | .mk n k _ s m x c, b => .mk n k b s m x c

/-- Append a child to an object. -/
def Obj.addChild : Obj → Obj → Obj
  | .mk n k b s m x c, d => .mk n k b s m x (c ++ [d])

/-- The slot-0 edit of copyAndApplyMaterial: with existing slots, only
slot 0's material is replaced; with no slots, the active-material
assignment sequence creates an object-linked slot 0. -/
def setSlot0Material (slots : List MatSlot) (mat : Option String) :
    List MatSlot :=
  match slots with
  | [] => [{ material := mat, link := .objectLink }]
  | s :: rest => { material := mat, link := s.link } :: rest

/-- The slot-0 edit after a cache hit in readFile: the assignment
sequence leaves slot 0 object-linked to the given material.  (The
transient effect of the first active-material assignment on a shared
mesh datablock is not modelled; no claim depends on it.) -/
def forceSlot0Object (slots : List MatSlot) (mat : Option String) :
    List MatSlot :=
  match slots with
  | [] => [{ material := mat, link := .objectLink }]
  | _ :: rest => { material := mat, link := .objectLink } :: rest

/-- Function copyAndApplyMaterial of the source: deep-copy an object and
its children; on every copied object that inherits its color, set slot 0
to the given material. -/
def copyAndApplyMaterial (o : Obj) (mat : Option String) : Obj :=
  match o with
  | .mk name kind inherits slots mesh matrix children =>
    let slots' := if inherits then setSlot0Material slots mat else slots
    .mk name kind inherits slots' mesh matrix
      (children.attach.map (fun c => copyAndApplyMaterial c.1 mat))
termination_by sizeOf o
decreasing_by
  simp_wf
  have h1 := List.sizeOf_lt_of_mem c.2
  omega

/-- Function setMeshSmooth of the source. -/
def setMeshSmooth (me : Mesh) : Mesh :=
  { me with faces := me.faces.map (fun f => { f with smooth := true }) }

/-- Function findMaterialIndex of the source: index of the first
data-linked slot holding the given material. -/
def findMaterialIndex (listOfSlots : List MatSlot)
    (material : Option String) : Option Nat :=
  listOfSlots.findIdx?
    (fun slot => decide (slot.link = .dataLink ∧ slot.material = material))

/-- The vertex loop of function poly: consume coordinate tokens three at
a time, appending a vertex per triple; a malformed numeral raises
`ValueError`, a missing token past the first of a triple raises
`IndexError` (Python evaluates `float(line[i])` before indexing
`line[i+1]`).  Vertices appended before a failure stay in the bmesh, as
in Python. -/
def polyVerts : List String → Mesh → List Nat →
    Mesh × Except PyErr (List Nat)
  | [], bm, acc => (bm, .ok acc)
  | t :: rest, bm, acc =>
    match pyFloat t with
    | none => (bm, .error (.valueError t))
    | some x =>
      match rest with
      | [] => (bm, .error .indexError)
      | u :: rest2 =>
        match pyFloat u with
        | none => (bm, .error (.valueError u))
        | some y =>
          match rest2 with
          | [] => (bm, .error .indexError)
          | v :: rest3 =>
            match pyFloat v with
            | none => (bm, .error (.valueError v))
            | some z =>
              let idx := bm.verts.length
              polyVerts rest3
                { bm with verts := bm.verts ++ [(x, y, z)] }
                (acc ++ [idx])

/-- Function poly of the source: build the vertices and one new face from
coordinate tokens; returns the new face's index.  (Validation that
bmesh's faces.new would apply to degenerate vertex lists is not
modelled; no claim uses such a line.) -/
def poly (toks : List String) (bm : Mesh) : Mesh × Except PyErr Nat :=
  match polyVerts toks bm [] with
  | (bm', .error e) => (bm', .error e)
  | (bm', .ok vs) =>
    ({ bm' with faces := bm'.faces ++
        [{ verts := vs, materialIndex := 0, smooth := false }] },
     .ok bm'.faces.length)

/-- Squared-distance comparison used by the weld model. -/
def nearVert (a b : Vec3) (d : Q) : Bool :=
  qle ((a.1 - b.1) ^ 2 + (a.2.1 - b.2.1) ^ 2 + (a.2.2 - b.2.2) ^ 2)
    (d ^ 2)

/-- Vertex pass of the weld: map every vertex to the first already-kept
vertex within the distance, else keep it.  Returns kept vertices and the
index map. -/
def weldVerts : List Vec3 → List Vec3 → List Nat → Q →
    List Vec3 × List Nat
  | [], kept, mp, _ => (kept, mp)
  | v :: rest, kept, mp, d =>
    match kept.findIdx? (fun w => nearVert w v d) with
    | some i => weldVerts rest kept (mp ++ [i]) d
    | none => weldVerts rest (kept ++ [v]) (mp ++ [kept.length]) d

/-- Modelled from bmesh.ops.remove_doubles at dist 0.0001 (a library
call of the source, line 559): vertices within the distance are merged
to the earliest such vertex and face indices are remapped. -/
def weldMesh (m : Mesh) : Mesh :=
  let (kept, mp) := weldVerts m.verts [] [] THRESHOLD
  { verts := kept,
    faces := m.faces.map (fun f =>
      { f with verts := f.verts.map (fun i => mp.getD i i) }) }

/-- Append a second mesh into a bmesh, offsetting its vertex indices
past the existing vertices (bmesh.from_mesh on a nonempty bmesh). -/
def meshAppend (bm m : Mesh) : Mesh :=
  let off := bm.verts.length
  { verts := bm.verts ++ m.verts,
    faces := bm.faces ++ m.faces.map (fun f =>
      { f with verts := f.verts.map (fun i => i + off) }) }

/-- Transform every vertex of a mesh (bm.transform). -/
def transformMesh (m : Mesh) (mat : Mat4) : Mesh :=
  { m with verts := m.verts.map (fun v => mat4Apply mat v) }

/-- Function lineType0 of the source: a comment or meta-command.  Updates
the color table on `!COLOUR` and the BFC scope on `BFC`; the WRITE,
PRINT, CLEAR, PAUSE and SAVE branches and unknown meta-commands do
nothing. -/
def lineType0 (line : String) (st : StPre) (bfc : BFCContext) :
    Except PyErr (StPre × BFCContext) := do
  let toks := pysplit line
  if toks.length < 2 then
    pure (st, bfc)
  else if toks.get! 1 ∈ ["WRITE", "PRINT", "CLEAR", "PAUSE", "SAVE"] then
    pure (st, bfc)
  else if toks.get! 1 = "!COLOUR" then do
    let name ←
      match toks.get? 2 with
      | some n => pure (pyStrip n)
      | none => throw .indexError
    let utoks := toks.map (fun t => pyUpper t)
    let lineDict ← genDict utoks ["CODE", "VALUE", "ALPHA", "LUMINANCE"]
    let (_, st') ← createMaterial name utoks lineDict st
    pure (st', bfc)
  else if toks.get! 1 = "BFC" then do
    let bfc :=
      if bfc.certified = some true ∧ "NOCERTIFY" ∉ toks then
        { bfc with certified := some true }
      else bfc
    let bfc' ← processBFCOptions bfc (toks.drop 2)
    pure (st, bfc')
  else
    pure (st, bfc)

/-- The operator configuration: the module globals set by
IMPORT_OT_ldraw.execute.  LOWRES is a module constant (False) that no
option ever sets; it is carried here so the resolution order can be
stated for both flags. -/
structure Cfg where
  LDRAWDIR : String
  HIRES : Bool
  LOWRES : Bool
  SMOOTH : Bool
  USELIGHTS : Bool
  MERGEPARTS : Bool
  GAPMAT : Mat4
  deriving Repr, DecidableEq

/-- A filesystem: existing paths mapped to their lines (each line keeps
its trailing newline, as Python file iteration yields it). -/
abbrev FS : Type := List (String × List String)

/-- A multi-part archive: lowercase sub-file name mapped to its lines.
The source accumulates each sub-part's text by string concatenation of
whole lines; the text is modelled as the list of those lines. -/
abbrev Archive : Type := List (String × List String)

/-- Does a path exist (os.path.exists)? -/
def pathExists (fs : FS) (p : String) : Bool := (getAssoc fs p).isSome

/-- Python `list.insert(i, a)` for i at most the length. -/
def insertAt {α : Type} (l : List α) (i : Nat) (a : α) : List α :=
  l.take i ++ [a] ++ l.drop i

/-- The candidate path list built in readFile: the literal name, then
parts, then p (preceded by p/48 under HIRES, then by p/8 under LOWRES,
each inserted at index 2), then models. -/
def searchPaths (cfg : Cfg) (fname : String) : List String :=
  let paths := [fname,
                pjoin3 cfg.LDRAWDIR "parts" fname,
                pjoin3 cfg.LDRAWDIR "p" fname,
                pjoin3 cfg.LDRAWDIR "models" fname]
  let paths :=
    if cfg.HIRES then
      insertAt paths 2 (pjoin (pjoin3 cfg.LDRAWDIR "p" "48") fname)
    else paths
  if cfg.LOWRES then
    insertAt paths 2 (pjoin (pjoin3 cfg.LDRAWDIR "p" "8") fname)
  else paths

/-- Function isAPart of the source: does the name denote a file under
the parts root, memoized in the process-wide partsCache set. -/
def isAPart (cfg : Cfg) (fs : FS) (name : String) (st : StPre) :
    Bool × StPre :=
  if name ∈ st.partsCache then (true, st)
  else if pathExists fs (pjoin3 cfg.LDRAWDIR "parts" name) then
    (true, { st with partsCache := st.partsCache ++ [name] })
  else (false, st)

/-- First index of the pattern in the character list, or -1. -/
def pyFindSubAux (pat : List Char) : List Char → Nat → Int
  | [], i => if pat.isPrefixOf ([] : List Char) then (i : Int) else -1
  | c :: rest, i =>
    if pat.isPrefixOf (c :: rest) then (i : Int)
    else pyFindSubAux pat rest (i + 1)

/-- Python `s.find(pat)` for a substring pattern. -/
def pyFindSub (s pat : String) : Int := pyFindSubAux pat.data s.data 0

/-- Append one raw line to a sub-part's accumulated text. -/
def archAppend (ar : Archive) (k : String) (line : String) : Archive :=
  setAssoc ar k ((getAssoc ar k).getD [] ++ [line])

/-- Does a raw line start a sub-part (`0 FILE name`)?  The source tests
the raw first character, then the second whitespace token. -/
def isFileDirective (line : String) : Bool :=
  pyFront line = '0' ∧ (pysplit line).get? 1 = some "FILE"

/-- The multi-part scan loop of readFile: thread the archive, the
current sub-part name and the first declared name over the raw lines. -/
def splitMPDLoop : List String → Archive → Option String → Option String →
    Archive × Option String
  | [], subfiles, _, firstName => (subfiles, firstName)
  | line :: rest, subfiles, name, firstName =>
    if pyFront line = '0' then
      let sline := pysplit line
      if sline.length < 2 then splitMPDLoop rest subfiles name firstName
      else if sline.get? 1 = some "FILE" then
        let i := (pyFindSub line "FILE" + 4).toNat
        let nm := pyLower (pyStrip (pyDrop line i))
        splitMPDLoop rest (setAssoc subfiles nm []) (some nm)
          (match firstName with | none => some nm | some f => some f)
      else if sline.get? 1 = some "NOFILE" then
        splitMPDLoop rest subfiles none firstName
      else
        match name with
        | some nm => splitMPDLoop rest (archAppend subfiles nm line) name firstName
        | none => splitMPDLoop rest subfiles name firstName
    else
      match name with
      | some nm => splitMPDLoop rest (archAppend subfiles nm line) name firstName
      | none => splitMPDLoop rest subfiles name firstName

/-- The multi-part split of readFile: scan the raw lines; if no FILE
directive ever appeared, the whole text becomes a single implicit part
named after the (lowercased) original filename. -/
def splitMPD (lines : List String) (fname : String) : Archive × String :=
  match splitMPDLoop lines [] none none with
  | (ar, some firstName) => (ar, firstName)
  | (ar, none) => (setAssoc ar (pyLower fname) lines, pyLower fname)

/-- The character index after the 14th space of a type-1 line, as
computed by the find loop of lineType1 (a failed find restarts from the
start, exactly as `line.find(' ', idx) + 1` yields 0 on -1). -/
def fname14Start (line : String) : Nat := go 14 0
where
  go : Nat → Nat → Nat
    | 0, idx => idx
    | n + 1, idx => go n (pyFind line ' ' idx + 1).toNat

/-- A deferred type-1 reference recorded by readLine: the stripped line,
the inherited material, the by-value snapshot of the BFC scope, and the
merge flag.  (The tuple in the source also carries the enclosing file's
object and archive; those are the state threaded by the enclosing
readFile and are supplied again when the entry is processed.) -/
structure Deferred where
  line : String
  material : Option String
  bfc : BFCContext
  merge : Bool
  deriving Repr

/-- The global import state: the color/material tables, warnings and
caches (StPre) together with the object datablocks (bpy.data.objects).
A finished object is recorded under its mesh name; the source creates
the datablock up front and removes it again on the ignore path, which
a later lookup cannot distinguish from this model. -/
structure GSt where
  pre : StPre
  dataObjects : List Obj
  deriving Repr

/-- The per-file scan state of readFile's line loop: the object being
built, the bmesh, the live BFC scope and the optional deferred list. -/
structure ScanState where
  obj : Obj
  bm : Mesh
  bfc : BFCContext
  readLater : Option (List Deferred)
  deriving Repr

/-- Replace one list element in place. -/
def listModify {α : Type} : List α → Nat → (α → α) → List α
  | [], _, _ => []
  | x :: rest, 0, f => f x :: rest
  | x :: rest, n + 1, f => x :: listModify rest n f

/-- Set the material index of the face at the given index. -/
def setFaceMatIdx (m : Mesh) (i : Nat) (idx : Nat) : Mesh :=
  { m with faces := listModify m.faces i (fun f => { f with materialIndex := idx }) }

/-- The material-slot remapping loop of the merge branch of lineType1:
walk the child's slots, skipping the object-linked ones of a
color-inheriting child, finding or appending each material in the
parent's slots, and building the old-to-new index map (the map starts
as 0 to 0). -/
def buildMatMap (childInherits : Bool) :
    List MatSlot → List MatSlot → List (Nat × Nat) → Nat →
    List MatSlot × List (Nat × Nat)
  | [], parentSlots, mp, _ => (parentSlots, mp)
  | slot :: rest, parentSlots, mp, idx =>
    if childInherits ∧ slot.link = .objectLink then
      buildMatMap childInherits rest parentSlots mp (idx + 1)
    else
      match findMaterialIndex parentSlots slot.material with
      | none =>
        let parentSlots' := parentSlots ++ [{ material := slot.material, link := .dataLink }]
        buildMatMap childInherits rest parentSlots'
          (setAssoc mp idx (parentSlots'.length - 1)) (idx + 1)
      | some matIdx =>
        buildMatMap childInherits rest parentSlots (setAssoc mp idx matIdx) (idx + 1)

/-- Remap every face's material index through the map; a missing key is
Python's KeyError. -/
def remapFaces : List Face → List (Nat × Nat) → Except PyErr (List Face)
  | [], _ => pure []
  | f :: rest, mp =>
    match getAssoc mp f.materialIndex with
    | none => throw (.keyError (toString f.materialIndex))
    | some k => do
      let rest' ← remapFaces rest mp
      pure ({ f with materialIndex := k } :: rest')

/-- Add a warning to the import state. -/
def warn (g : GSt) (msg : String) : GSt :=
  { g with pre := { g.pre with warnings := g.pre.warnings ++ [msg] } }

/-- The smoothness filename heuristic of readFile (driven by the SMOOTH
option). -/
def smoothName (fname : String) : Bool :=
  (containsSubstr fname "con" ∧ ¬ pyStartsWith fname "con") ∨
  containsSubstr fname "cyl" ∨ containsSubstr fname "sph" ∨
  pyStartsWith fname "t0" ∨ pyStartsWith fname "t1" ∨
  containsSubstr fname "bump"

/-- One call shape of the recursive reader.  The recursion of the source
(readFile, its line scan, readLine, lineType1 and the deferred-reference
loop) is interpreted by the single fuel-indexed function `run` below so
that the model computes by structural recursion; the named wrappers
further down restore the source's signatures. -/
inductive Call where
  | readFile (fname : String) (bfc : BFCContext) (first : Bool)
      (smoothArg : Bool) (material : Option String) (transform : Bool)
      (subfiles : Archive) (merge : Bool) (g : GSt)
  | readFileResolved (fname : String) (lines : List String)
      (bfc : BFCContext) (first : Bool) (transform : Bool)
      (subfiles : Archive) (material : Option String) (merge : Bool)
      (g : GSt)
  | scanLines (lines : List String) (material : Option String)
      (subfiles : Archive) (merge : Bool) (containsData : Bool) (g : GSt)
      (ss : ScanState)
  | afterScan (fname mname : String) (first : Bool) (transform : Bool)
      (subfiles : Archive) (containsData : Bool) (g : GSt) (ss : ScanState)
  | readLine (line : String) (material : Option String)
      (subfiles : Archive) (merge : Bool) (g : GSt) (ss : ScanState)
  | lineType1 (line : String) (oldObj : Obj) (oldMaterial : Option String)
      (bfc : BFCContext) (subfiles : Archive) (merge : Bool) (g : GSt)
  | processReadLater (entries : List Deferred) (subfiles : Archive)
      (g : GSt) (obj : Obj)

/-- Result of one call of the recursive reader. -/
inductive CallRes where
  | fileRes (g : GSt) (obj : Option Obj)
  | scanRes (containsData : Bool) (g : GSt) (ss : ScanState)
  | objRes (g : GSt) (obj : Obj)

/-- The recursive reader.  Fuel decreases at every internal call; it is
a termination device only (all concrete runs below use ample fuel) and
its exhaustion plays the role of Python's RecursionError. -/
def run (cfg : Cfg) (fs : FS) : Nat → Call → Except PyErr CallRes
  | 0, _ => throw .recursionError
  | fuel + 1, call => do
    let asFile : CallRes → Except PyErr (GSt × Option Obj) := fun r =>
      match r with
      | .fileRes g o => pure (g, o)
      | _ => throw .recursionError
    let asScan : CallRes → Except PyErr (Bool × GSt × ScanState) := fun r =>
      match r with
      | .scanRes b g ss => pure (b, g, ss)
      | _ => throw .recursionError
    let asObj : CallRes → Except PyErr (GSt × Obj) := fun r =>
      match r with
      | .objRes g o => pure (g, o)
      | _ => throw .recursionError
    match call with
    | .readFile fname bfc first smoothArg material transform subfiles merge g =>
      -- Function readFile, resolution part.
      match getAssoc subfiles fname with
      | some lines =>
        -- part of a multi-part: read from the archive text
        run cfg fs fuel (.readFileResolved fname lines bfc first transform
          subfiles material merge g)
      | none =>
        let fname := pyReplaceChar fname '\\' '/'
        match (searchPaths cfg fname).find? (fun p => pathExists fs p) with
        | none =>
          pure (.fileRes (warn g ("Could not find file " ++ fname)) none)
        | some path =>
          let lines := (getAssoc fs path).getD []
          if splitextExt fname = ".mpd" ∨ splitextExt fname = ".ldr" then
            -- multi-part: split and recurse into the first sub-part
            let (subfiles', firstName) := splitMPD lines fname
            run cfg fs fuel (.readFile firstName bfc first smoothArg
              material transform subfiles' merge g)
          else
            run cfg fs fuel (.readFileResolved fname lines bfc first
              transform subfiles material merge g)
    | .readFileResolved fname lines bfc first transform subfiles material merge g =>
      -- Function readFile after the file text is at hand.
      let mname := basename fname
      if mname ∈ g.pre.ignoreObjects then
        pure (.fileRes g none)
      else
        match g.dataObjects.find? (fun o => o.name == mname) with
        | some cached =>
          -- re-import avoided: copy the existing object
          let obj := copyAndApplyMaterial cached material
          let obj := obj.setSlots (forceSlot0Object obj.materialSlots material)
          pure (.fileRes g (some obj))
        | none =>
          let obj : Obj := .mk mname .meshKind false
            [{ material := material, link := .objectLink }]
            emptyMesh mat4Identity []
          let ss : ScanState :=
            { obj := obj, bm := emptyMesh, bfc := bfc, readLater := some [] }
          let r ← run cfg fs fuel (.scanLines lines material subfiles merge false g ss)
          let (containsData, g, ss) ← asScan r
          let r ← run cfg fs fuel (.afterScan fname mname first transform
            subfiles containsData g ss)
          pure r
    | .scanLines lines material subfiles merge containsData g ss =>
      -- The per-line loop of readFile.
      match lines with
      | [] => pure (.scanRes containsData g ss)
      | line :: rest => do
        let r ← run cfg fs fuel (.readLine line material subfiles merge g ss)
        let (b, g, ss) ← asScan r
        run cfg fs fuel (.scanLines rest material subfiles merge
          (b || containsData) g ss)
    | .afterScan fname mname first transform subfiles containsData g ss =>
      -- The tail of readFile after the line loop.
      let obj := ss.obj
      let obj := if first ∧ transform then obj.setMatrix DEFAULTMAT else obj
      let bm := if cfg.SMOOTH ∧ smoothName fname then setMeshSmooth ss.bm else ss.bm
      let obj := obj.setMesh bm
      let r ← run cfg fs fuel (.processReadLater (ss.readLater.getD []) subfiles g obj)
      let (g, obj) ← asObj r
      let obj := obj.setMesh (weldMesh obj.mesh)
      if ¬ containsData then
        pure (.fileRes
          { g with pre := { g.pre with
              ignoreObjects := g.pre.ignoreObjects ++ [mname] } } none)
      else
        pure (.fileRes { g with dataObjects := g.dataObjects ++ [obj] } (some obj))
    | .readLine line0 material subfiles merge g ss =>
      -- Function readLine.
      let line := pyStrip line0
      if line.length = 0 then pure (.scanRes false g ss)
      else
        let command := commandOf line
        if command = "0" then do
          let (pre, bfc) ← lineType0 line g.pre ss.bfc
          pure (.scanRes false { g with pre := pre } { ss with bfc := bfc })
        else if command = "1" then
          match ss.readLater with
          | none => do
            let r ← run cfg fs fuel (.lineType1 line ss.obj material ss.bfc
              subfiles merge g)
            let (g, obj) ← asObj r
            pure (.scanRes true g
              { ss with obj := obj, bfc := { ss.bfc with invertNext := false } })
          | some l =>
            pure (.scanRes true g
              { ss with
                readLater := some (l ++
                  [{ line := line, material := material,
                     bfc := BFCContext.copy ss.bfc, merge := merge }]),
                bfc := { ss.bfc with invertNext := false } })
        else if command = "3" ∨ command = "4" then
          let toks := pysplit line
          let (bm, res) := poly (toks.drop 2) ss.bm
          match res with
          | .error (.valueError m) =>
            -- except ValueError: warn and keep reading
            pure (.scanRes true
              (warn g ("could not convert string to float: " ++ m))
              { ss with bm := bm })
          | .error e => throw e
          | .ok faceIdx => do
            let colorTok ←
              match toks.get? 1 with
              | some t => pure t
              | none => throw PyErr.indexError
            let ((color, faceMat), pre) ← colorReference colorTok g.pre
            let g := { g with pre := pre }
            if color ≠ some 16 ∧ color ≠ some 24 then
              match findMaterialIndex ss.obj.materialSlots faceMat with
              | none =>
                let obj := ss.obj.setSlots
                  (ss.obj.materialSlots ++ [{ material := faceMat, link := .dataLink }])
                pure (.scanRes true g
                  { ss with
                    obj := obj,
                    bm := setFaceMatIdx bm faceIdx (obj.materialSlots.length - 1) })
              | some slotIdx =>
                pure (.scanRes true g { ss with bm := setFaceMatIdx bm faceIdx slotIdx })
            else
              pure (.scanRes true g { ss with bm := setFaceMatIdx bm faceIdx 0 })
        else if command = "2" ∨ command = "5" then
          pure (.scanRes false g ss)
        else
          pure (.scanRes false (warn g ("Unknown linetype " ++ command ++ "\n")) ss)
    | .lineType1 line oldObj oldMaterial bfc subfiles merge g =>
      -- Function lineType1.
      let fname := pyLower (pyDrop line (fname14Start line))
      let toks := pysplit line
      let getTok : Nat → Except PyErr String := fun i =>
        match toks.get? i with
        | some t => pure t
        | none => throw PyErr.indexError
      let getF : Nat → Except PyErr Q := fun i => do
        let t ← getTok i
        match pyFloat t with
        | some q => pure q
        | none => throw (PyErr.valueError t)
      let a ← getF 5
      let b ← getF 6
      let c ← getF 7
      let x ← getF 2
      let d ← getF 8
      let e ← getF 9
      let f ← getF 10
      let y ← getF 3
      let p ← getF 11
      let q ← getF 12
      let r ← getF 13
      let z ← getF 4
      let newMatrix := mkRefMatrix x y z a b c d e f p q r
      let colorTok ← getTok 1
      let ((materialId, material0), pre) ← colorReference colorTok g.pre
      let g := { g with pre := pre }
      let material :=
        if materialId = some 16 ∨ materialId = some 24 then oldMaterial
        else material0
      let (g, newObj) ←
        if (getAssoc subfiles fname).isSome then do
          let r ← run cfg fs fuel (.readFile fname (BFCContext.fresh (some bfc))
            false false material false subfiles merge g)
          asFile r
        else if fname = "light.dat" ∧ cfg.USELIGHTS then
          match material with
          | none => throw PyErr.attributeError
          | some _ =>
            -- lamp datablock parameters are read from the material and
            -- not further modelled
            pure (g, some (.mk fname .lampKind false [] emptyMesh mat4Identity []))
        else do
          let (isP, pre) := isAPart cfg fs fname g.pre
          let r ← run cfg fs fuel (.readFile fname (BFCContext.fresh (some bfc))
            false false material false [] (merge ∨ (cfg.MERGEPARTS ∧ isP))
            { g with pre := pre })
          asFile r
      match newObj with
      | none => pure (.objRes g oldObj)
      | some newObj =>
        let (isP, pre) := isAPart cfg fs fname g.pre
        let g := { g with pre := pre }
        let newMatrix ←
          if isP then
            if fname = "" then throw PyErr.indexError
            else if pyTake fname 1 = "s" then
              if fname.length = 1 then throw PyErr.indexError
              else if pyTake (pyDrop fname 1) 1 = "/" ∨ pyTake (pyDrop fname 1) 1 = "\\" then
                pure newMatrix
              else pure (mat4Mul newMatrix cfg.GAPMAT)
            else pure (mat4Mul newMatrix cfg.GAPMAT)
          else pure newMatrix
        -- the invertNext branch of the source is a commented-out no-op
        let newObj :=
          if materialId = some 16 ∨ materialId = some 24 then
            newObj.setInherits true
          else newObj
        if merge then do
          let (parentSlots, mp) := buildMatMap newObj.ldrawInheritsColor
            newObj.materialSlots oldObj.materialSlots [(0, 0)] 0
          let faces ← remapFaces newObj.mesh.faces mp
          let childBM := transformMesh { newObj.mesh with faces := faces } newMatrix
          let combined := meshAppend childBM oldObj.mesh
          pure (.objRes g ((oldObj.setSlots parentSlots).setMesh combined))
        else
          let newObj := newObj.setMatrix newMatrix
          let g :=
            if matrixEqual newMatrix newObj.matrixLocal THRESHOLD then g
            else warn g "Object matrix has changed, model may have errors!"
          pure (.objRes g (oldObj.addChild newObj))
    | .processReadLater entries subfiles g obj =>
      -- The deferred-reference loop at the end of readFile.
      match entries with
      | [] => pure (.objRes g obj)
      | e :: rest => do
        let r ← run cfg fs fuel (.lineType1 e.line obj e.material e.bfc
          subfiles e.merge g)
        let (g, obj) ← asObj r
        run cfg fs fuel (.processReadLater rest subfiles g obj)

/-- Function readFile of the source (named wrapper over `run`). -/
def readFile (fuel : Nat) (cfg : Cfg) (fs : FS) (fname : String)
    (bfc : BFCContext) (first : Bool) (smoothArg : Bool)
    (material : Option String) (transform : Bool) (subfiles : Archive)
    (merge : Bool) (g : GSt) : Except PyErr (GSt × Option Obj) := do
  match ← run cfg fs fuel (.readFile fname bfc first smoothArg material
      transform subfiles merge g) with
  | .fileRes g o => pure (g, o)
  | _ => throw .recursionError

/-- The per-line scan loop of readFile (named wrapper over `run`). -/
def scanLines (fuel : Nat) (cfg : Cfg) (fs : FS) (lines : List String)
    (material : Option String) (subfiles : Archive) (merge : Bool)
    (containsData : Bool) (g : GSt) (ss : ScanState) :
    Except PyErr (Bool × GSt × ScanState) := do
  match ← run cfg fs fuel (.scanLines lines material subfiles merge
      containsData g ss) with
  | .scanRes b g ss => pure (b, g, ss)
  | _ => throw .recursionError

/-- The tail of readFile after the line scan (named wrapper over `run`):
the smooth pass, the deferred-reference processing, the weld and the
empty-file classification. -/
def afterScan (fuel : Nat) (cfg : Cfg) (fs : FS) (fname mname : String)
    (first : Bool) (transform : Bool) (subfiles : Archive)
    (containsData : Bool) (g : GSt) (ss : ScanState) :
    Except PyErr (GSt × Option Obj) := do
  match ← run cfg fs fuel (.afterScan fname mname first transform subfiles
      containsData g ss) with
  | .fileRes g o => pure (g, o)
  | _ => throw .recursionError

/-- Function readLine of the source (named wrapper over `run`). -/
def readLine (fuel : Nat) (cfg : Cfg) (fs : FS) (line : String)
    (material : Option String) (subfiles : Archive) (merge : Bool)
    (g : GSt) (ss : ScanState) : Except PyErr (Bool × GSt × ScanState) := do
  match ← run cfg fs fuel (.readLine line material subfiles merge g ss) with
  | .scanRes b g ss => pure (b, g, ss)
  | _ => throw .recursionError

/-- Function lineType1 of the source (named wrapper over `run`). -/
def lineType1 (fuel : Nat) (cfg : Cfg) (fs : FS) (line : String)
    (oldObj : Obj) (oldMaterial : Option String) (bfc : BFCContext)
    (subfiles : Archive) (merge : Bool) (g : GSt) :
    Except PyErr (GSt × Obj) := do
  match ← run cfg fs fuel (.lineType1 line oldObj oldMaterial bfc subfiles
      merge g) with
  | .objRes g o => pure (g, o)
  | _ => throw .recursionError

/-- The deferred-reference loop of readFile (named wrapper over `run`). -/
def processReadLater (fuel : Nat) (cfg : Cfg) (fs : FS)
    (entries : List Deferred) (subfiles : Archive) (g : GSt) (obj : Obj) :
    Except PyErr (GSt × Obj) := do
  match ← run cfg fs fuel (.processReadLater entries subfiles g obj) with
  | .objRes g o => pure (g, o)
  | _ => throw .recursionError

/-- The body of readFile once the file text has been obtained (named
wrapper over `run`): the ignore-set check, the object-cache check, the
line scan and the tail. -/
def readFileResolved (fuel : Nat) (cfg : Cfg) (fs : FS) (fname : String)
    (lines : List String) (bfc : BFCContext) (first : Bool)
    (transform : Bool) (subfiles : Archive) (material : Option String)
    (merge : Bool) (g : GSt) : Except PyErr (GSt × Option Obj) := do
  match ← run cfg fs fuel (.readFileResolved fname lines bfc first
      transform subfiles material merge g) with
  | .fileRes g o => pure (g, o)
  | _ => throw .recursionError

/-- The empty import state (start of main: MATERIALS and IGNOREOBJECTS
fresh). -/
def emptySt : StPre :=
  { dataMaterials := [], materials := [], ignoreObjects := [],
    partsCache := [], warnings := [] }

/-- The empty global state. -/
def emptyGSt : GSt := { pre := emptySt, dataObjects := [] }

/-- A sample operator configuration used by the concrete runs: all
boolean options off, seam gap 0.001 as the operator default. -/
def sampleCfg : Cfg :=
  { LDRAWDIR := "/ldraw", HIRES := false, LOWRES := false, SMOOTH := false,
    USELIGHTS := false, MERGEPARTS := false, GAPMAT := mat4Scale ⟨999, 1000⟩ }

/-- The root scope BFCContext() that main passes to the top readFile. -/
def rootBFC : BFCContext := BFCContext.fresh none

/-- The effective material of a face: the material of the slot its
material index selects on the owning object. -/
def effectiveFaceMat (o : Obj) (i : Nat) : Option String := do
  let f ← o.mesh.faces.get? i
  let slot ← o.materialSlots.get? f.materialIndex
  slot.material

/-- The inherited-color scenario: register color 4 from a !COLOUR line,
then read a part whose single reference instantiates sub.dat with
color 4, sub.dat holding one triangle with color token 16. -/
def inheritScenario : Except PyErr (GSt × Option Obj) :=
  match lineType0 "0 !COLOUR Red CODE 4 VALUE #C91A09" emptySt rootBFC with
  | .error e => .error e
  | .ok (st1, _) =>
    readFile 30 sampleCfg [] "a.ldr" rootBFC false false none false
      [("a.ldr", ["1 4 0 0 0 1 0 0 0 1 0 0 0 1 sub.dat\n"]),
       ("sub.dat", ["3 16 0 0 0 1 0 0 0 1 0\n"])] false
      { pre := st1, dataObjects := [] }

section Lemmas

/-- Inversion of a successful Except bind. -/
theorem except_bind_ok {ε α β : Type} {x : Except ε α} {f : α → Except ε β}
    {b : β} (h : x.bind f = .ok b) : ∃ a, x = .ok a ∧ f a = .ok b := by
  cases x with
  | error e => simp [Except.bind] at h
  | ok a => exact ⟨a, rfl, by simpa [Except.bind] using h⟩

/-- Looking up a key just set returns the new value. -/
theorem getAssoc_setAssoc {α β : Type} [DecidableEq α]
    (l : List (α × β)) (k : α) (v : β) :
    getAssoc (setAssoc l k v) k = some v := by
  induction l with
  | nil => simp [setAssoc, getAssoc]
  | cons p rest ih =>
    obtain ⟨a, b⟩ := p
    by_cases h : k = a
    · simp [setAssoc, getAssoc, h]
    · simp [setAssoc, getAssoc, h, ih]

/-- A pure value is an ok value. -/
theorem except_pure_eq_ok {ε α : Type} (a : α) :
    (pure a : Except ε α) = Except.ok a := rfl

/-- A thrown error is never an ok value. -/
theorem except_throw_ne_ok {ε α : Type} (e : ε) (a : α) :
    (throw e : Except ε α) ≠ Except.ok a := fun h => Except.noConfusion h

/-- Bind of an error (reduction helper for the monadic proofs). -/
theorem except_error_bind {ε α β : Type} (e : ε) (f : α → Except ε β) :
    (Except.error e : Except ε α) >>= f = .error e := rfl

/-- Bind of a thrown error (reduction helper for the monadic proofs). -/
theorem except_throw_bind {ε α β : Type} (e : ε) (f : α → Except ε β) :
    (throw e : Except ε α) >>= f = .error e := rfl

/-- Bind of an ok value (reduction helper for the monadic proofs). -/
theorem except_ok_bind {ε α β : Type} (a : α) (f : α → Except ε β) :
    (Except.ok a : Except ε α) >>= f = f a := rfl

/-- Bind of a pure value (reduction helper for the monadic proofs). -/
theorem except_pure_bind {ε α β : Type} (a : α) (f : α → Except ε β) :
    (pure a : Except ε α) >>= f = f a := rfl

end Lemmas

/-- C1: on descending into a referenced file, the child scope built by
BFCContext(parent) has accumCull = parent.accumCull AND parent.localCull
and accumInvert = parent.accumInvert XOR parent.invertNext when the
parent is certified; an uncertified or absent parent yields
accumCull = accumInvert = false; in particular the parent with
accumCull true, accumInvert false, localCull true, invertNext true
yields a child with accumCull and accumInvert both true. -/
theorem bfc_scope_derivation (p : BFCContext) :
    (p.certified = some true →
      (BFCContext.fresh (some p)).accumCull = (p.accumCull && p.localCull) ∧
      (BFCContext.fresh (some p)).accumInvert = xor p.accumInvert p.invertNext) ∧
    (p.certified ≠ some true →
      (BFCContext.fresh (some p)).accumCull = false ∧
      (BFCContext.fresh (some p)).accumInvert = false) ∧
    (BFCContext.fresh none).accumCull = false ∧
    (BFCContext.fresh none).accumInvert = false ∧
    (p.accumCull = true → p.accumInvert = false → p.localCull = true →
      p.invertNext = true → p.certified = some true →
      (BFCContext.fresh (some p)).accumCull = true ∧
      (BFCContext.fresh (some p)).accumInvert = true) := by
  refine ⟨fun h => ?_, fun h => ?_, rfl, rfl, fun h1 h2 h3 h4 h5 => ?_⟩
  · simp [BFCContext.fresh, h]
  · simp [BFCContext.fresh, h]
  · simp [BFCContext.fresh, h1, h2, h3, h4, h5]

/-- C4 counterexample: the claim calls a contradictory CERTIFY after an
explicit NOCERTIFY a recoverable error (reported, prior value kept, read
continues); on this two-line file the read instead aborts with the
AssertionError raised by the `assert` in lineType0's CERTIFY branch. -/
theorem bfc_conflict_counterexample :
    readFile 20 sampleCfg [] "c.dat" rootBFC false false none false
      [("c.dat", ["0 BFC NOCERTIFY\n", "0 BFC CERTIFY\n"])] false emptyGSt
      = .error .assertionError := by rfl

/-- C4 amended: a BFC CERTIFY option after an explicit NOCERTIFY (and a
NOCERTIFY after an explicit CERTIFY) fails the assert in lineType0 and
raises AssertionError, which nothing catches, so the file read aborts;
the processing is fatal rather than reported-and-continued. -/
theorem bfc_conflict_fatal (bfc : BFCContext) :
    (bfc.certified = some false →
      processBFCOption bfc "CERTIFY" = .error .assertionError) ∧
    (bfc.certified = some true →
      processBFCOption bfc "NOCERTIFY" = .error .assertionError) ∧
    readFile 20 sampleCfg [] "c2.dat" rootBFC false false none false
      [("c2.dat", ["0 BFC CERTIFY\n", "0 BFC NOCERTIFY\n"])] false emptyGSt
      = .error .assertionError := by
  refine ⟨fun h => ?_, fun h => ?_, by rfl⟩
  · simp [processBFCOption, h]
    rfl
  · simp [processBFCOption, h]
    rfl

/-- Witness for C4's amended theorem at a concrete scope. -/
theorem bfc_conflict_fatal_witness :
    processBFCOption
      { localCull := true, winding := CCW, invertNext := false,
        certified := some false, accumCull := false, accumInvert := false }
      "CERTIFY" = .error .assertionError :=
  (bfc_conflict_fatal _).1 rfl

section SplitLemmas

/-- A prefix free of FILE directives leaves the split loop's state
untouched while the current sub-part name is absent. -/
theorem splitMPDLoop_skip (pre : List String) (ys : List String)
    (ar : Archive) (fn : Option String)
    (h : ∀ l ∈ pre, isFileDirective l = false) :
    splitMPDLoop (pre ++ ys) ar none fn = splitMPDLoop ys ar none fn := by
  induction pre with
  | nil => rfl
  | cons line rest ih =>
    have hline := h line (by simp)
    have hrest : ∀ l ∈ rest, isFileDirective l = false :=
      fun l hl => h l (by simp [hl])
    simp only [isFileDirective, decide_eq_false_iff_not, not_and] at hline
    simp only [List.cons_append, splitMPDLoop]
    by_cases h0 : pyFront line = '0'
    · have hfile : ¬ ((pysplit line).get? 1 = some "FILE") := hline h0
      simp only [h0, if_pos]
      by_cases hlen : (pysplit line).length < 2
      · simp only [if_pos hlen]
        exact ih hrest
      · simp only [if_neg hlen, if_neg hfile]
        by_cases hnf : (pysplit line).get? 1 = some "NOFILE"
        · simp only [if_pos hnf]
          exact ih hrest
        · simp only [if_neg hnf]
          exact ih hrest
    · simp only [if_neg h0]
      exact ih hrest

/-- Once the first declared name is recorded, the split loop never
forgets it. -/
theorem splitMPDLoop_keeps_firstName (lines : List String) :
    ∀ (ar : Archive) (nm : Option String) (f : String),
    ∃ ar', splitMPDLoop lines ar nm (some f) = (ar', some f) := by
  induction lines with
  | nil => exact fun ar nm f => ⟨ar, rfl⟩
  | cons line rest ih =>
    intro ar nm f
    simp only [splitMPDLoop]
    by_cases h0 : pyFront line = '0'
    · simp only [h0, if_pos]
      by_cases hlen : (pysplit line).length < 2
      · simpa only [if_pos hlen] using ih ar nm f
      · simp only [if_neg hlen]
        by_cases hfile : (pysplit line).get? 1 = some "FILE"
        · simpa only [if_pos hfile] using ih _ _ f
        · simp only [if_neg hfile]
          by_cases hnf : (pysplit line).get? 1 = some "NOFILE"
          · simpa only [if_pos hnf] using ih ar none f
          · simp only [if_neg hnf]
            cases nm with
            | none => exact ih ar none f
            | some n => exact ih _ (some n) f
    · simp only [if_neg h0]
      cases nm with
      | none => exact ih ar none f
      | some n => exact ih _ (some n) f

/-- If some line is a FILE directive, the split loop records a first
declared name. -/
theorem splitMPDLoop_some_of_directive (lines : List String) :
    ∀ (ar : Archive), (∃ l ∈ lines, isFileDirective l = true) →
    (splitMPDLoop lines ar none none).2.isSome = true := by
  induction lines with
  | nil => intro ar h; simp at h
  | cons line rest ih =>
    intro ar h
    simp only [splitMPDLoop]
    by_cases hd : isFileDirective line = true
    · have h0 : pyFront line = '0' := by
        have := hd
        simp only [isFileDirective, decide_eq_true_eq] at this
        exact this.1
      have hfile : (pysplit line).get? 1 = some "FILE" := by
        have := hd
        simp only [isFileDirective, decide_eq_true_eq] at this
        exact this.2
      have hlen : ¬ ((pysplit line).length < 2) := by
        have h1 : 1 < (pysplit line).length := (List.get?_eq_some.mp hfile).1
        omega
      simp only [h0, if_pos, if_neg hlen, if_pos hfile]
      obtain ⟨ar', har⟩ := splitMPDLoop_keeps_firstName rest
        (setAssoc ar (pyLower (pyStrip (pyDrop line (pyFindSub line "FILE" + 4).toNat))) [])
        (some (pyLower (pyStrip (pyDrop line (pyFindSub line "FILE" + 4).toNat)))) _
      rw [har]
      rfl
    · have hrest : ∃ l ∈ rest, isFileDirective l = true := by
        rcases h with ⟨l, hl, hdl⟩
        rcases List.mem_cons.mp hl with rfl | hl'
        · exact absurd hdl hd
        · exact ⟨l, hl', hdl⟩
      have hnot : isFileDirective line = false := by
        cases hq : isFileDirective line
        · rfl
        · exact absurd hq hd
      simp only [isFileDirective, decide_eq_false_iff_not, not_and] at hnot
      by_cases h0 : pyFront line = '0'
      · have hfile : ¬ ((pysplit line).get? 1 = some "FILE") := hnot h0
        simp only [h0, if_pos]
        by_cases hlen : (pysplit line).length < 2
        · simpa only [if_pos hlen] using ih ar hrest
        · simp only [if_neg hlen, if_neg hfile]
          by_cases hnf : (pysplit line).get? 1 = some "NOFILE"
          · simpa only [if_pos hnf] using ih ar hrest
          · simp only [if_neg hnf]
            exact ih ar hrest
      · simp only [if_neg h0]
        exact ih ar hrest

end SplitLemmas

/-- C10: when a FILE directive appears, every line before the first
`0 FILE` belongs to no sub-part — the split of the whole line list
equals the split of the suffix that starts at the first directive — and
the implicit whole-text part (which the split would produce for the
original filename) arises only when no FILE directive appears at all,
since any directive leaves a recorded first name. -/
theorem mpd_prefix_dropped (pre rs lines : List String) (r : String)
    (fname : String) :
    ((∀ l ∈ pre, isFileDirective l = false) → isFileDirective r = true →
      splitMPD (pre ++ r :: rs) fname = splitMPD (r :: rs) fname) ∧
    ((∃ l ∈ lines, isFileDirective l = true) →
      (splitMPDLoop lines [] none none).2.isSome = true) := by
  constructor
  · intro hpre hr
    have hskip := splitMPDLoop_skip pre (r :: rs) [] none hpre
    have hsome := splitMPDLoop_some_of_directive (r :: rs) []
      ⟨r, by simp, hr⟩
    unfold splitMPD
    rw [hskip]
    rcases hq : splitMPDLoop (r :: rs) [] none none with ⟨ar, fn⟩
    cases fn with
    | none => rw [hq] at hsome; simp at hsome
    | some f => rfl
  · exact splitMPDLoop_some_of_directive lines []

/-- C7: splitting the claim's five-line text yields exactly the two
sub-parts a and b, each owning the verbatim text between its FILE line
and the next directive (the FILE and NOFILE lines belong to none); after
a split the reader recurses into the first declared sub-part with the
archive; and with no FILE directive anywhere the whole text becomes one
implicit part named after the lowercased original filename. -/
theorem multipart_split (fuel : Nat) (cfg : Cfg) (fs : FS)
    (fname path : String) (lines : List String) (bfc : BFCContext)
    (first smoothArg transform merge : Bool) (material : Option String)
    (subfiles : Archive) (g : GSt) :
    ((splitMPD ["0 FILE A\n", "1 ...\n", "0 FILE B\n", "1 ...\n", "0 NOFILE\n"]
        "top.mpd").1.map (fun kv => (kv.1, String.join kv.2))
      = [("a", "1 ...\n"), ("b", "1 ...\n")] ∧
     (splitMPD ["0 FILE A\n", "1 ...\n", "0 FILE B\n", "1 ...\n", "0 NOFILE\n"]
        "top.mpd").2 = "a") ∧
    (getAssoc subfiles fname = none →
     (searchPaths cfg (pyReplaceChar fname '\\' '/')).find?
        (fun p => pathExists fs p) = some path →
     getAssoc fs path = some lines →
     (splitextExt (pyReplaceChar fname '\\' '/') = ".mpd" ∨
      splitextExt (pyReplaceChar fname '\\' '/') = ".ldr") →
     readFile (fuel + 1) cfg fs fname bfc first smoothArg material transform
        subfiles merge g =
       readFile fuel cfg fs (splitMPD lines (pyReplaceChar fname '\\' '/')).2
        bfc first smoothArg material transform
        (splitMPD lines (pyReplaceChar fname '\\' '/')).1 merge g) ∧
    ((∀ l ∈ lines, isFileDirective l = false) →
     splitMPD lines fname = ([(pyLower fname, lines)], pyLower fname)) := by
  refine ⟨⟨by rfl, by rfl⟩, fun h1 h2 h3 h4 => ?_, fun h => ?_⟩
  · have key : run cfg fs (fuel + 1) (.readFile fname bfc first smoothArg
        material transform subfiles merge g)
        = run cfg fs fuel (.readFile
            (splitMPD lines (pyReplaceChar fname '\\' '/')).2 bfc first
            smoothArg material transform
            (splitMPD lines (pyReplaceChar fname '\\' '/')).1 merge g) := by
      rw [run]
      rcases hsp : splitMPD lines (pyReplaceChar fname '\\' '/') with ⟨ar, fn⟩
      rcases h4 with h4 | h4 <;>
        simp only [h1, h2, h3, h4, Option.getD_some, hsp, true_or, or_true,
          if_true, if_pos]
    unfold readFile
    rw [key]
  · unfold splitMPD
    have hs := splitMPDLoop_skip lines [] [] none h
    rw [List.append_nil] at hs
    rw [hs]
    rfl

/-- Witness for C7: the recursion equation at a concrete two-part file
and the implicit-part case at a concrete headerless file. -/
theorem multipart_split_witness :
    readFile 6 sampleCfg
      [("m.mpd", ["0 FILE A\n", "1 ...\n", "0 FILE B\n", "1 ...\n", "0 NOFILE\n"])]
      "m.mpd" rootBFC false false none false [] false emptyGSt
      = readFile 5 sampleCfg
          [("m.mpd", ["0 FILE A\n", "1 ...\n", "0 FILE B\n", "1 ...\n", "0 NOFILE\n"])]
          "a" rootBFC false false none false
          [("a", ["1 ...\n"]), ("b", ["1 ...\n"])] false emptyGSt ∧
    splitMPD ["0 x\n"] "plain.ldr" = ([("plain.ldr", ["0 x\n"])], "plain.ldr") := by
  constructor
  · exact (multipart_split 5 sampleCfg
      [("m.mpd", ["0 FILE A\n", "1 ...\n", "0 FILE B\n", "1 ...\n", "0 NOFILE\n"])]
      "m.mpd" "m.mpd"
      ["0 FILE A\n", "1 ...\n", "0 FILE B\n", "1 ...\n", "0 NOFILE\n"]
      rootBFC false false false false none [] emptyGSt).2.1
      (by rfl) (by rfl) (by rfl) (Or.inl (by rfl))
  · exact (multipart_split 0 sampleCfg [] "plain.ldr" "" ["0 x\n"] rootBFC
      false false false false none [] emptyGSt).2.2 (by decide)

/-- Witness for C10 at a concrete prefix and directive. -/
theorem mpd_prefix_dropped_witness :
    splitMPD ["0 junk\n", "2 1 0 0 0 1 1 1\n", "0 FILE A\n", "1 ...\n"] "t.ldr"
      = splitMPD ["0 FILE A\n", "1 ...\n"] "t.ldr" :=
  (mpd_prefix_dropped ["0 junk\n", "2 1 0 0 0 1 1 1\n"] ["1 ...\n"] [] "0 FILE A\n" "t.ldr").1
    (by decide) (by decide)

/-- The vertex loop of poly never touches the face list, also on its
error paths. -/
theorem polyVerts_faces (toks : List String) (bm : Mesh) (acc : List Nat) :
    ((polyVerts toks bm acc).1).faces = bm.faces := by
  induction toks, bm, acc using polyVerts.induct <;> simp [polyVerts, *]

/-- A stripped line whose command token is a digit is nonempty. -/
theorem commandOf_ne_of_empty (s : String) (h : s.length = 0) :
    commandOf s = "" := by
  have hd : s.data = [] := List.length_eq_zero.mp h
  simp [commandOf, pyTake, hd]

/-- C3 counterexample: the claim says a malformed numeric field in a
type-1 reference line is recovered by skipping the line; on this
one-line file the ValueError from float('x') in lineType1 is uncaught
and the whole file read aborts. -/
theorem malformed_reference_counterexample :
    readFile 20 sampleCfg [] "bad.dat" rootBFC false false none false
      [("bad.dat", ["1 16 x 0 0 0 1 0 0 0 1 0 0 1 foo.dat\n"])] false emptyGSt
      = .error (.valueError "x") := by rfl

/-- C3 amended: a malformed numeric field in a type-3/4 polygon line is
caught (except ValueError): the line's face is skipped, a warning is
recorded, the vertices appended before the failure remain without a
face, and the remaining lines of the file are still read; a malformed
numeric field in a type-1 reference line instead raises an uncaught
ValueError when the deferred reference is processed, aborting the
enclosing file read. -/
theorem malformed_poly_recovered (fuel : Nat) (cfg : Cfg) (fs : FS)
    (line : String) (material : Option String) (subfiles : Archive)
    (merge : Bool) (g : GSt) (ss : ScanState) (bm : Mesh) (m : String)
    (toks : List String) (bm0 : Mesh) (acc : List Nat) (e : PyErr) :
    ((commandOf (pyStrip line) = "3" ∨ commandOf (pyStrip line) = "4") →
     poly ((pysplit (pyStrip line)).drop 2) ss.bm = (bm, .error (.valueError m)) →
     readLine (fuel + 1) cfg fs line material subfiles merge g ss =
       .ok (true, warn g ("could not convert string to float: " ++ m),
            { ss with bm := bm })) ∧
    (poly toks bm0 = (bm, .error e) → bm.faces = bm0.faces) ∧
    ((match readFile 20 sampleCfg [] "r.dat" rootBFC false false none false
        [("r.dat", ["3 16 zzz 0 0 1 0 0 0 1 0\n", "3 16 0 0 0 1 0 0 0 1 0\n"])]
        false emptyGSt with
      | .ok (g, some o) => some (g.pre.warnings, o.mesh.faces.length)
      | _ => none)
      = some (["could not convert string to float: zzz"], 1)) := by
  refine ⟨fun h1 h2 => ?_, fun hp => ?_, by rfl⟩
  · by_cases hlen : (pyStrip line).length = 0
    · exfalso
      have hc := commandOf_ne_of_empty (pyStrip line) hlen
      rcases h1 with h | h <;> rw [hc] at h <;> exact absurd h (by decide)
    · unfold readLine
      rw [run]
      rcases h1 with h | h <;>
        simp only [h, hlen, if_neg, if_false, h2, reduceIte] <;> rfl
  · have hface := polyVerts_faces toks bm0 []
    unfold poly at hp
    rcases hq : polyVerts toks bm0 [] with ⟨bm', r⟩
    rw [hq] at hface hp
    cases r with
    | error e' =>
      simp only at hp
      injection hp with hp1 hp2
      rw [← hp1]
      exact hface
    | ok vs => simp at hp

/-- Witness for C3's amended theorem at a concrete malformed triangle
line. -/
theorem malformed_poly_recovered_witness :
    readLine 5 sampleCfg [] "3 16 zzz 0 0 1 0 0 0 1 0" none [] false emptyGSt
      { obj := .mk "r.dat" .meshKind false [] emptyMesh mat4Identity [],
        bm := emptyMesh, bfc := rootBFC, readLater := some [] }
      = .ok (true, warn emptyGSt "could not convert string to float: zzz",
          { obj := .mk "r.dat" .meshKind false [] emptyMesh mat4Identity [],
            bm := emptyMesh, bfc := rootBFC, readLater := some [] }) :=
  (malformed_poly_recovered 4 sampleCfg [] "3 16 zzz 0 0 1 0 0 0 1 0" none []
    false emptyGSt
    { obj := .mk "r.dat" .meshKind false [] emptyMesh mat4Identity [],
      bm := emptyMesh, bfc := rootBFC, readLater := some [] }
    emptyMesh "zzz" [] emptyMesh [] .indexError).1
    (Or.inl (by rfl)) (by rfl)

/-- C6: resolution tries the active archive first (an archive hit goes
straight to reading the archive text), then the candidate paths in
order: the literal name, parts, p (preceded by p/48 under the hi-res
option and by p/8 under the low-res flag), models, where the first
existing path wins; when the archive misses and no path exists, the
reader warns "Could not find file ..." and returns no object; lineType1
lowercases the referenced filename before the archive lookup (and the
archive stores lowercased names), so the archive match is
case-insensitive; the concrete scenario shows the unresolved reference
contributing zero geometry while the following reference in the same
file is still processed. -/
theorem file_resolution_order (fuel : Nat) (cfg : Cfg) (fs : FS)
    (fname : String) (lines : List String) (bfc : BFCContext)
    (first smoothArg transform merge : Bool) (material : Option String)
    (subfiles : Archive) (g : GSt) :
    (searchPaths { cfg with HIRES := false, LOWRES := false } fname
       = [fname, pjoin3 cfg.LDRAWDIR "parts" fname,
          pjoin3 cfg.LDRAWDIR "p" fname, pjoin3 cfg.LDRAWDIR "models" fname] ∧
     searchPaths { cfg with HIRES := true, LOWRES := false } fname
       = [fname, pjoin3 cfg.LDRAWDIR "parts" fname,
          pjoin (pjoin3 cfg.LDRAWDIR "p" "48") fname,
          pjoin3 cfg.LDRAWDIR "p" fname, pjoin3 cfg.LDRAWDIR "models" fname] ∧
     searchPaths { cfg with HIRES := false, LOWRES := true } fname
       = [fname, pjoin3 cfg.LDRAWDIR "parts" fname,
          pjoin (pjoin3 cfg.LDRAWDIR "p" "8") fname,
          pjoin3 cfg.LDRAWDIR "p" fname, pjoin3 cfg.LDRAWDIR "models" fname]) ∧
    (getAssoc subfiles fname = some lines →
     readFile (fuel + 1) cfg fs fname bfc first smoothArg material transform
        subfiles merge g
       = readFileResolved fuel cfg fs fname lines bfc first transform
          subfiles material merge g) ∧
    (pathExists fs fname = true →
     (searchPaths cfg fname).find? (fun p => pathExists fs p) = some fname) ∧
    (getAssoc subfiles fname = none →
     (searchPaths cfg (pyReplaceChar fname '\\' '/')).find?
        (fun p => pathExists fs p) = none →
     readFile (fuel + 1) cfg fs fname bfc first smoothArg material transform
        subfiles merge g
       = .ok (warn g ("Could not find file " ++ pyReplaceChar fname '\\' '/'),
              none)) ∧
    (pyLower (pyDrop "1 16 0 0 0 1 0 0 0 1 0 0 0 1 SUB.DAT"
        (fname14Start "1 16 0 0 0 1 0 0 0 1 0 0 0 1 SUB.DAT")) = "sub.dat") ∧
    ((match readFile 30 sampleCfg [] "par.dat" rootBFC false false none false
        [("par.dat", ["1 16 0 0 0 1 0 0 0 1 0 0 0 1 missing.dat\n",
                      "1 16 0 0 0 1 0 0 0 1 0 0 0 1 sub.dat\n"]),
         ("sub.dat", ["3 16 0 0 0 1 0 0 0 1 0\n"])] false emptyGSt with
      | .ok (g, some par) => some (par.children.length, g.pre.warnings)
      | _ => none)
      = some (1, ["Could not find file missing.dat"])) := by
  refine ⟨⟨by rfl, by rfl, by rfl⟩, fun h => ?_, fun h => ?_,
    fun h1 h2 => ?_, by rfl, by rfl⟩
  · unfold readFile readFileResolved
    rw [run]
    simp only [h]
  · obtain ⟨d, hi, lo, sm, ul, mp, gm⟩ := cfg
    cases hi <;> cases lo <;>
      simp only [searchPaths, insertAt] <;>
      exact List.find?_cons_of_pos _ h
  · unfold readFile
    rw [run]
    simp only [h1, h2]
    rfl

/-- Witness for C6: the unresolved-reference equation at the claim's
missing.dat and the archive-priority equation at a concrete archive. -/
theorem file_resolution_order_witness :
    readFile 1 sampleCfg [] "missing.dat" rootBFC false false none false []
      false emptyGSt
      = .ok (warn emptyGSt "Could not find file missing.dat", none) ∧
    readFile 3 sampleCfg [] "sub.dat" rootBFC false false none false
      [("sub.dat", ["3 16 0 0 0 1 0 0 0 1 0\n"])] false emptyGSt
      = readFileResolved 2 sampleCfg [] "sub.dat" ["3 16 0 0 0 1 0 0 0 1 0\n"]
          rootBFC false false [("sub.dat", ["3 16 0 0 0 1 0 0 0 1 0\n"])]
          none false emptyGSt := by
  constructor
  · exact (file_resolution_order 0 sampleCfg [] "missing.dat" [] rootBFC
      false false false false none [] emptyGSt).2.2.2.1 (by rfl) (by rfl)
  · exact (file_resolution_order 2 sampleCfg [] "sub.dat"
      ["3 16 0 0 0 1 0 0 0 1 0\n"] rootBFC false false false false none
      [("sub.dat", ["3 16 0 0 0 1 0 0 0 1 0\n"])] emptyGSt).2.1 (by rfl)

/-- C9: registering a valid !COLOUR line and looking the color up by its
code yields alpha = ALPHA/255, which for a valid ALPHA between 0 and
255 coincides with its clamp to the interval from 0 to 1; with the
ALPHA field absent the stored alpha is 255/255, whose value is 1. -/
theorem colour_alpha_registration (st : StPre) (name : String)
    (line : List String) (d : List (String × String)) (c v s : String)
    (rgb : Q × Q × Q) (a : Int) :
    getAssoc d "CODE" = some c → pyIsDigit c = true →
    getAssoc d "VALUE" = some v → hex2rgb v = .ok rgb →
    (getAssoc d "LUMINANCE" = none ∨
      ∃ ls lv, getAssoc d "LUMINANCE" = some ls ∧ pyInt ls = some lv) →
    materialFinishScan line = .ok () →
    (pyInt c).getD 0 ≠ 16 → (pyInt c).getD 0 ≠ 24 →
    ((getAssoc d "ALPHA" = some s → pyInt s = some a → 0 ≤ a → a ≤ 255 →
      ∃ st', createMaterial name line d st = .ok (name, st') ∧
        colorReference c st' = .ok ((some ((pyInt c).getD 0), some name), st') ∧
        (getAssoc st'.dataMaterials name).map Material.alpha
          = some (qofInt a / 255) ∧
        clamp01 (qofInt a / 255) = qofInt a / 255) ∧
     (getAssoc d "ALPHA" = none →
      ∃ st', createMaterial name line d st = .ok (name, st') ∧
        colorReference c st' = .ok ((some ((pyInt c).getD 0), some name), st') ∧
        (getAssoc st'.dataMaterials name).map Material.alpha
          = some (qofInt 255 / 255) ∧
        qeqv (qofInt 255 / 255) 1 = true)) := by
  intro hcode hdig hval hrgb hlum hfin h16 h24
  have hcr : ∀ st' : StPre,
      getAssoc st'.materials (.num ((pyInt c).getD 0)) = some name →
      colorReference c st' = .ok ((some ((pyInt c).getD 0), some name), st') := by
    intro st' hm
    unfold colorReference
    simp only [hdig, if_pos, reduceIte]
    rw [if_neg (fun h => h.elim h16 h24), hm]
    rfl
  have main : ∀ (alphaInt : Int),
      (getAssoc d "ALPHA" = some s ∧ pyInt s = some alphaInt ∨
       getAssoc d "ALPHA" = none ∧ alphaInt = 255) →
      ∃ st', createMaterial name line d st = .ok (name, st') ∧
        getAssoc st'.materials (MatId.num ((pyInt c).getD 0)) = some name ∧
        (getAssoc st'.dataMaterials name).map Material.alpha
          = some (qofInt alphaInt / 255) := by
    intro alphaInt hcases
    unfold createMaterial
    rcases hcases with ⟨hA, hAv⟩ | ⟨hA, hAv⟩ <;>
      rcases hlum with hL | ⟨ls, lv, hL, hLv⟩ <;>
        rcases hm0 : getAssoc st.dataMaterials name with _ | m0 <;>
          simp only [*, if_pos, reduceIte, except_ok_bind, except_pure_bind] <;>
            exact ⟨_, rfl, getAssoc_setAssoc _ _ _, by
              simp [getAssoc_setAssoc]⟩
  constructor
  · intro hA ha h0 h255
    obtain ⟨st', h1, h2, h3⟩ := main a (Or.inl ⟨hA, ha⟩)
    refine ⟨st', h1, hcr st' h2, h3, ?_⟩
    have e : (qofInt a / 255 : Q) = ⟨a * 1, 1 * 255⟩ := rfl
    have hb1 : qle 0 ⟨a * 1, 1 * 255⟩ = true := by
      show decide ((0 : Int) * (1 * 255) ≤ a * 1 * 1) = true
      simp only [decide_eq_true_eq]
      omega
    have hb2 : qle ⟨a * 1, 1 * 255⟩ 1 = true := by
      show decide (a * 1 * 1 ≤ 1 * (1 * 255)) = true
      simp only [decide_eq_true_eq]
      omega
    rw [e]
    unfold clamp01
    rw [hb1, hb2]
    simp
  · intro hA
    obtain ⟨st', h1, h2, h3⟩ := main 255 (Or.inr ⟨hA, rfl⟩)
    exact ⟨st', h1, hcr st' h2, h3, by decide⟩

/-- Witness for C9 at the concrete line
0 !COLOUR Red CODE 4 VALUE #C91A09 ALPHA 128. -/
theorem colour_alpha_registration_witness :
    ∃ st', createMaterial "Red"
        ["0", "!COLOUR", "RED", "CODE", "4", "VALUE", "#C91A09", "ALPHA", "128"]
        [("CODE", "4"), ("VALUE", "#C91A09"), ("ALPHA", "128")] emptySt
        = .ok ("Red", st') ∧
      colorReference "4" st' = .ok ((some 4, some "Red"), st') ∧
      (getAssoc st'.dataMaterials "Red").map Material.alpha
        = some (qofInt 128 / 255) ∧
      clamp01 (qofInt 128 / 255) = qofInt 128 / 255 :=
  (colour_alpha_registration emptySt "Red"
    ["0", "!COLOUR", "RED", "CODE", "4", "VALUE", "#C91A09", "ALPHA", "128"]
    [("CODE", "4"), ("VALUE", "#C91A09"), ("ALPHA", "128")] "4" "#C91A09"
    "128" (⟨201, 255⟩, ⟨26, 255⟩, ⟨9, 255⟩) 128
    (by rfl) (by rfl) (by rfl) (by rfl) (Or.inl (by rfl)) (by rfl)
    (by decide) (by decide)).1 (by rfl) (by rfl) (by decide) (by decide)

/-- C5: color tokens 16 and 24 resolve to no stored material for every
table state; any other decimal token with a registered code resolves
through the table; a type-3/4 line with token 16 or 24 assigns material
slot 0 to the new face; and in the concrete scenario a face written
`3 16 ...` inside a part instantiated with color 4 ends with code 4's
registered color (the Red registered for code 4) as its effective
color. -/
theorem color_sixteen_inherits (fuel : Nat) (cfg : Cfg) (fs : FS)
    (line s mname : String) (material : Option String)
    (subfiles : Archive) (merge : Bool) (g : GSt) (ss : ScanState)
    (bm : Mesh) (fi : Nat) (st : StPre) :
    (colorReference "16" st = .ok ((some 16, none), st) ∧
     colorReference "24" st = .ok ((some 24, none), st)) ∧
    (pyIsDigit s = true → (pyInt s).getD 0 ≠ 16 → (pyInt s).getD 0 ≠ 24 →
     getAssoc st.materials (.num ((pyInt s).getD 0)) = some mname →
     colorReference s st = .ok ((some ((pyInt s).getD 0), some mname), st)) ∧
    ((commandOf (pyStrip line) = "3" ∨ commandOf (pyStrip line) = "4") →
     ((pysplit (pyStrip line)).get? 1 = some "16" ∨
      (pysplit (pyStrip line)).get? 1 = some "24") →
     poly ((pysplit (pyStrip line)).drop 2) ss.bm = (bm, .ok fi) →
     readLine (fuel + 1) cfg fs line material subfiles merge g ss =
       .ok (true, g, { ss with bm := setFaceMatIdx bm fi 0 })) ∧
    ((match inheritScenario with
      | .ok (gr, some par) =>
        some (par.children.head?.bind (fun ch => effectiveFaceMat ch 0),
              getAssoc gr.pre.materials (.num 4))
      | _ => none) = some (some "Red", some "Red")) := by
  refine ⟨⟨by rfl, by rfl⟩, fun hdig h16 h24 hm => ?_, fun h1 h2 h3 => ?_,
    by rfl⟩
  · unfold colorReference
    simp only [hdig, if_pos, reduceIte]
    rw [if_neg (fun h => h.elim h16 h24), hm]
    rfl
  · by_cases hlen : (pyStrip line).length = 0
    · exfalso
      have hc := commandOf_ne_of_empty (pyStrip line) hlen
      rcases h1 with h | h <;> rw [hc] at h <;> exact absurd h (by decide)
    · have c16 : ∀ stx : StPre, colorReference "16" stx
          = .ok ((some 16, none), stx) := fun _ => rfl
      have c24 : ∀ stx : StPre, colorReference "24" stx
          = .ok ((some 24, none), stx) := fun _ => rfl
      unfold readLine
      rw [run]
      rcases h1 with h | h <;> rcases h2 with h2 | h2 <;>
        simp only [h, h2, hlen, if_neg, if_false, h3, reduceIte, c16, c24,
          except_ok_bind] <;> rfl

/-- Witness for C5: the table-resolution at a registered code 4 and the
slot-0 assignment at a concrete inherited-color triangle line. -/
theorem color_sixteen_inherits_witness :
    colorReference "4"
      { dataMaterials :=
          [("Red", { name := "Red", diffuse := (1, 0, 0), alpha := 1,
                     emit := 0 })],
        materials := [(MatId.num 4, "Red")], ignoreObjects := [],
        partsCache := [], warnings := [] }
      = .ok ((some 4, some "Red"),
        { dataMaterials :=
            [("Red", { name := "Red", diffuse := (1, 0, 0), alpha := 1,
                       emit := 0 })],
          materials := [(MatId.num 4, "Red")], ignoreObjects := [],
          partsCache := [], warnings := [] }) ∧
    readLine 5 sampleCfg [] "3 16 0 0 0 1 0 0 0 1 0" none [] false emptyGSt
      { obj := .mk "r.dat" .meshKind false [] emptyMesh mat4Identity [],
        bm := emptyMesh, bfc := rootBFC, readLater := some [] }
      = .ok (true, emptyGSt,
          { obj := .mk "r.dat" .meshKind false [] emptyMesh mat4Identity [],
            bm := setFaceMatIdx
              { verts := [(0, 0, 0), (1, 0, 0), (0, 1, 0)],
                faces := [{ verts := [0, 1, 2], materialIndex := 0,
                            smooth := false }] } 0 0,
            bfc := rootBFC, readLater := some [] }) := by
  constructor
  · exact (color_sixteen_inherits 0 sampleCfg [] "" "4" "Red" none [] false
      emptyGSt
      { obj := .mk "" .meshKind false [] emptyMesh mat4Identity [],
        bm := emptyMesh, bfc := rootBFC, readLater := none }
      emptyMesh 0
      { dataMaterials :=
          [("Red", { name := "Red", diffuse := (1, 0, 0), alpha := 1,
                     emit := 0 })],
        materials := [(MatId.num 4, "Red")], ignoreObjects := [],
        partsCache := [], warnings := [] }).2.1
      (by rfl) (by decide) (by decide) (by rfl)
  · exact (color_sixteen_inherits 4 sampleCfg [] "3 16 0 0 0 1 0 0 0 1 0" ""
      "" none [] false emptyGSt
      { obj := .mk "r.dat" .meshKind false [] emptyMesh mat4Identity [],
        bm := emptyMesh, bfc := rootBFC, readLater := some [] }
      { verts := [(0, 0, 0), (1, 0, 0), (0, 1, 0)],
        faces := [{ verts := [0, 1, 2], materialIndex := 0,
                    smooth := false }] } 0 emptySt).2.2.1
      (Or.inl (by rfl)) (Or.inl (by rfl)) (by rfl)

/-- A successful readLine call extends the deferred list: existing
entries are preserved in order and at most one entry is appended. -/
theorem run_readLine_extend (fuel : Nat) (cfg : Cfg) (fs : FS)
    (line : String) (material : Option String) (subfiles : Archive)
    (merge : Bool) (g : GSt) (ss : ScanState) (b : Bool) (g' : GSt)
    (ss' : ScanState) (l : List Deferred)
    (h : run cfg fs fuel (.readLine line material subfiles merge g ss)
      = .ok (.scanRes b g' ss'))
    (hl : ss.readLater = some l) :
    ∃ extra, ss'.readLater = some (l ++ extra) := by
  match fuel with
  | 0 => simp [run] at h
  | fuel + 1 =>
    rw [run] at h
    by_cases h0 : (pyStrip line).length = 0
    · simp only [h0, reduceIte, except_pure_eq_ok, Except.ok.injEq,
        CallRes.scanRes.injEq] at h
      exact ⟨[], by rw [← h.2.2]; simp [hl]⟩
    · simp only [h0, reduceIte] at h
      by_cases hc0 : commandOf (pyStrip line) = "0"
      · simp only [hc0, reduceIte] at h
        rcases except_bind_ok h with ⟨⟨pre, bfc⟩, _, h⟩
        simp only [except_pure_eq_ok, Except.ok.injEq,
          CallRes.scanRes.injEq] at h
        exact ⟨[], by rw [← h.2.2]; simp [hl]⟩
      · simp only [hc0, reduceIte] at h
        by_cases hc1 : commandOf (pyStrip line) = "1"
        · simp only [hc1, reduceIte, hl] at h
          simp only [except_pure_eq_ok, Except.ok.injEq,
            CallRes.scanRes.injEq] at h
          refine ⟨[⟨pyStrip line, material, BFCContext.copy ss.bfc, merge⟩], ?_⟩
          rw [← h.2.2]
        · simp only [hc1, reduceIte] at h
          by_cases hc34 : commandOf (pyStrip line) = "3" ∨
              commandOf (pyStrip line) = "4"
          · simp only [hc34, reduceIte] at h
            rcases hpoly : poly ((pysplit (pyStrip line)).drop 2) ss.bm with
              ⟨bm1, res1⟩
            rw [hpoly] at h
            match res1 with
            | .error (.valueError m) =>
              simp only [except_pure_eq_ok, Except.ok.injEq,
                CallRes.scanRes.injEq] at h
              exact ⟨[], by rw [← h.2.2]; simp [hl]⟩
            | .error .indexError => simp at h
            | .error (.keyError k) => simp at h
            | .error .attributeError => simp at h
            | .error .assertionError => simp at h
            | .error .recursionError => simp at h
            | .ok fi =>
              try dsimp only at h
              match hq : (pysplit (pyStrip line)).get? 1 with
              | none =>
                rw [hq] at h
                try dsimp only at h
                simp [except_throw_bind] at h
              | some tok =>
                rw [hq] at h
                try dsimp only at h
                try rw [except_pure_bind] at h
                rcases except_bind_ok h with ⟨⟨⟨color, faceMat⟩, pre⟩, _, h⟩
                try dsimp only at h
                by_cases hcl : ¬color = some 16 ∧ ¬color = some 24
                · rw [if_pos hcl] at h
                  rcases hfmi : findMaterialIndex ss.obj.materialSlots faceMat
                      with _ | idx <;>
                    rw [hfmi] at h <;>
                      simp only [except_pure_eq_ok, Except.ok.injEq,
                        CallRes.scanRes.injEq] at h <;>
                        exact ⟨[], by rw [← h.2.2]; simp [hl]⟩
                · rw [if_neg hcl] at h
                  simp only [except_pure_eq_ok, Except.ok.injEq,
                    CallRes.scanRes.injEq] at h
                  exact ⟨[], by rw [← h.2.2]; simp [hl]⟩
          · simp only [hc34, reduceIte] at h
            by_cases hc25 : commandOf (pyStrip line) = "2" ∨
                commandOf (pyStrip line) = "5"
            · simp only [hc25, reduceIte, except_pure_eq_ok, Except.ok.injEq,
                CallRes.scanRes.injEq] at h
              exact ⟨[], by rw [← h.2.2]; simp [hl]⟩
            · simp only [hc25, reduceIte, except_pure_eq_ok, Except.ok.injEq,
                CallRes.scanRes.injEq] at h
              exact ⟨[], by rw [← h.2.2]; simp [hl]⟩

/-- A successful line scan only ever appends to the deferred list:
the entries present at the start survive, in order, as a prefix. -/
theorem run_scanLines_extend (lines : List String) :
    ∀ (fuel : Nat) (cfg : Cfg) (fs : FS) (material : Option String)
      (subfiles : Archive) (merge cd : Bool) (g : GSt) (ss : ScanState)
      (b : Bool) (g' : GSt) (ss' : ScanState) (l : List Deferred),
    run cfg fs fuel (.scanLines lines material subfiles merge cd g ss)
      = .ok (.scanRes b g' ss') →
    ss.readLater = some l →
    ∃ extra, ss'.readLater = some (l ++ extra) := by
  induction lines with
  | nil =>
    intro fuel cfg fs material subfiles merge cd g ss b g' ss' l h hl
    match fuel with
    | 0 => simp [run] at h
    | fuel + 1 =>
      rw [run] at h
      simp only [except_pure_eq_ok, Except.ok.injEq, CallRes.scanRes.injEq] at h
      exact ⟨[], by rw [← h.2.2]; simp [hl]⟩
  | cons line rest ih =>
    intro fuel cfg fs material subfiles merge cd g ss b g' ss' l h hl
    match fuel with
    | 0 => simp [run] at h
    | fuel + 1 =>
      rw [run] at h
      rcases except_bind_ok h with ⟨r, hr, h⟩
      try dsimp only at h
      match r with
      | .scanRes b1 g1 ss1 =>
        try dsimp only at h
        try rw [except_pure_bind] at h
        try dsimp only at h
        obtain ⟨e1, he1⟩ := run_readLine_extend fuel cfg fs line material
          subfiles merge g ss b1 g1 ss1 l hr hl
        obtain ⟨e2, he2⟩ := ih fuel cfg fs material subfiles merge
          (b1 || cd) g1 ss1 b g' ss' (l ++ e1) h he1
        exact ⟨e1 ++ e2, by rw [he2, List.append_assoc]⟩
      | .fileRes g1 o =>
        try dsimp only at h
        simp [except_throw_bind] at h
      | .objRes g1 o =>
        try dsimp only at h
        simp [except_throw_bind] at h

/-- C2: a type-1 reference line is not processed where it is
encountered: with a deferred list present, readLine only appends to it
the stripped line together with a by-value snapshot of the BFC scope as
it is at that line, clears the live scope's invertNext, and leaves
the import state and the object untouched; a whole-file scan only ever
appends to the deferred list, so the entries stay in encounter order;
the body of readFile is exactly the line scan followed by the
after-scan phase; and the after-scan phase processes the deferred
entries first to last through lineType1. -/
theorem deferred_references (fuel : Nat) (cfg : Cfg) (fs : FS)
    (line fname : String) (lines : List String)
    (material : Option String) (subfiles : Archive) (merge cd b : Bool)
    (g g' : GSt) (ss ss' : ScanState) (l : List Deferred)
    (bfc : BFCContext) (first transform : Bool) (obj : Obj)
    (e : Deferred) (rest : List Deferred) :
    (commandOf (pyStrip line) = "1" → ss.readLater = some l →
     readLine (fuel + 1) cfg fs line material subfiles merge g ss =
       .ok (true, g, { ss with
         readLater := some (l ++
           [⟨pyStrip line, material, BFCContext.copy ss.bfc, merge⟩]),
         bfc := { ss.bfc with invertNext := false } })) ∧
    (ss.readLater = some l →
     scanLines fuel cfg fs lines material subfiles merge cd g ss
       = .ok (b, g', ss') →
     ∃ extra, ss'.readLater = some (l ++ extra)) ∧
    (basename fname ∉ g.pre.ignoreObjects →
     g.dataObjects.find? (fun o => o.name == basename fname) = none →
     readFileResolved (fuel + 1) cfg fs fname lines bfc first transform
        subfiles material merge g
       = (scanLines fuel cfg fs lines material subfiles merge false g
            { obj := .mk (basename fname) .meshKind false
                [{ material := material, link := .objectLink }]
                emptyMesh mat4Identity [],
              bm := emptyMesh, bfc := bfc, readLater := some [] }) >>=
          (fun r => afterScan fuel cfg fs fname (basename fname) first
            transform subfiles r.1 r.2.1 r.2.2)) ∧
    (processReadLater (fuel + 1) cfg fs (e :: rest) subfiles g obj
       = (lineType1 fuel cfg fs e.line obj e.material e.bfc subfiles
            e.merge g) >>=
          (fun r => processReadLater fuel cfg fs rest subfiles r.1 r.2) ∧
     processReadLater (fuel + 1) cfg fs [] subfiles g obj = .ok (g, obj)) := by
  refine ⟨fun h1 hl => ?_, fun hl hs => ?_, fun h1 h2 => ?_, ?_, by rfl⟩
  · by_cases hlen : (pyStrip line).length = 0
    · rw [commandOf_ne_of_empty _ hlen] at h1
      exact absurd h1 (by decide)
    · unfold readLine
      rw [run]
      simp only [h1, hlen, hl, reduceIte, if_neg, if_false]
      rfl
  · unfold scanLines at hs
    cases hr : run cfg fs fuel (.scanLines lines material subfiles merge cd g ss) with
    | error err =>
      rw [hr, except_error_bind] at hs
      exact Except.noConfusion hs
    | ok r =>
      rw [hr] at hs
      match r with
      | .scanRes b2 g2 ss2 =>
        have hs2 : (Except.ok (b2, g2, ss2) :
            Except PyErr (Bool × GSt × ScanState)) = Except.ok (b, g', ss') := hs
        have h3 := Except.ok.inj hs2
        simp only [Prod.mk.injEq] at h3
        obtain ⟨rfl, rfl, rfl⟩ := h3
        exact run_scanLines_extend lines fuel cfg fs material subfiles
          merge cd g ss b2 g2 ss2 l hr hl
      | .fileRes g2 o =>
        try dsimp only at hs
        exact absurd hs (except_throw_ne_ok _ _)
      | .objRes g2 o =>
        try dsimp only at hs
        exact absurd hs (except_throw_ne_ok _ _)
  · unfold readFileResolved scanLines afterScan
    rw [run]
    rw [if_neg h1, h2]
    try dsimp only
    cases hr : run cfg fs fuel (.scanLines lines material subfiles merge false g
        { obj := .mk (basename fname) .meshKind false
            [{ material := material, link := .objectLink }]
            emptyMesh mat4Identity [],
          bm := emptyMesh, bfc := bfc, readLater := some [] }) with
    | error err => rfl
    | ok r =>
      match r with
      | .scanRes b2 g2 ss2 =>
        try simp only [except_ok_bind, except_pure_bind]
        try dsimp only
        cases ha : run cfg fs fuel (.afterScan fname (basename fname) first
            transform subfiles b2 g2 ss2) with
        | error err => rfl
        | ok ra => match ra with
          | .fileRes g3 o => rfl
          | .scanRes b3 g3 ss3 => rfl
          | .objRes g3 o => rfl
      | .fileRes g2 o => rfl
      | .objRes g2 o => rfl
  · unfold processReadLater lineType1
    rw [run]
    try dsimp only
    cases hr : run cfg fs fuel (.lineType1 e.line obj e.material e.bfc
        subfiles e.merge g) with
    | error err => rfl
    | ok r =>
      match r with
      | .objRes g2 o => rfl
      | .fileRes g2 o => rfl
      | .scanRes b2 g2 ss2 => rfl

/-- Witness for C2 at a concrete reference line and a concrete scan. -/
theorem deferred_references_witness :
    readLine 5 sampleCfg [] "1 16 0 0 0 1 0 0 0 1 0 0 0 1 sub.dat" none []
      false emptyGSt
      { obj := .mk "p.dat" .meshKind false [] emptyMesh mat4Identity [],
        bm := emptyMesh, bfc := rootBFC, readLater := some [] }
      = .ok (true, emptyGSt,
          { obj := .mk "p.dat" .meshKind false [] emptyMesh mat4Identity [],
            bm := emptyMesh,
            bfc := { rootBFC with invertNext := false },
            readLater := some
              [⟨"1 16 0 0 0 1 0 0 0 1 0 0 0 1 sub.dat", none,
                BFCContext.copy rootBFC, false⟩] }) :=
  (deferred_references 4 sampleCfg [] "1 16 0 0 0 1 0 0 0 1 0 0 0 1 sub.dat"
    "" [] none [] false false false emptyGSt emptyGSt
    { obj := .mk "p.dat" .meshKind false [] emptyMesh mat4Identity [],
      bm := emptyMesh, bfc := rootBFC, readLater := some [] }
    { obj := .mk "p.dat" .meshKind false [] emptyMesh mat4Identity [],
      bm := emptyMesh, bfc := rootBFC, readLater := some [] }
    [] rootBFC false false (.mk "" .meshKind false [] emptyMesh mat4Identity [])
    ⟨"", none, rootBFC, false⟩ []).1 (by rfl) (by rfl)

/-- C8: a file of only type-0 meta lines yields no object and its mesh
name enters the process-wide ignore set; any later read of a name whose
basename is in the ignore set returns no object with the state untouched
before any line is read (the result is the same for every possible
file content, so the lines are never re-read). -/
theorem header_file_ignored (fuel : Nat) (cfg : Cfg) (fs : FS)
    (fname : String) (lines : List String) (bfc : BFCContext)
    (first smoothArg transform merge : Bool) (material : Option String)
    (subfiles : Archive) (g : GSt) :
    (readFile 20 sampleCfg [] "h.dat" rootBFC false false none false
        [("h.dat", ["0 hello world\n", "0 another comment\n"])] false emptyGSt
      = .ok ({ pre := { emptySt with ignoreObjects := ["h.dat"] },
               dataObjects := [] }, none)) ∧
    (getAssoc subfiles fname = some lines →
     basename fname ∈ g.pre.ignoreObjects →
     readFile (fuel + 2) cfg fs fname bfc first smoothArg material transform
        subfiles merge g = .ok (g, none)) := by
  refine ⟨by rfl, fun h1 h2 => ?_⟩
  unfold readFile
  rw [run]
  simp only [h1]
  rw [run]
  simp only [if_pos h2]
  rfl

/-- Witness for C8: the second read of the just-ignored header file
short-circuits to no output with the state unchanged. -/
theorem header_file_ignored_witness :
    readFile 20 sampleCfg [] "h.dat" rootBFC false false none false
      [("h.dat", ["0 hello world\n", "0 another comment\n"])] false
      { pre := { emptySt with ignoreObjects := ["h.dat"] }, dataObjects := [] }
      = .ok ({ pre := { emptySt with ignoreObjects := ["h.dat"] },
               dataObjects := [] }, none) :=
  (header_file_ignored 18 sampleCfg [] "h.dat"
    ["0 hello world\n", "0 another comment\n"] rootBFC false false false
    false none [("h.dat", ["0 hello world\n", "0 another comment\n"])]
    { pre := { emptySt with ignoreObjects := ["h.dat"] },
      dataObjects := [] }).2 (by rfl) (by decide)

/-- Witness for C1 at the concrete parent scope of the claim. -/
theorem bfc_scope_derivation_witness :
    (BFCContext.fresh (some
      { localCull := true, winding := CCW, invertNext := true,
        certified := some true, accumCull := true,
        accumInvert := false })).accumCull = true ∧
    (BFCContext.fresh (some
      { localCull := true, winding := CCW, invertNext := true,
        certified := some true, accumCull := true,
        accumInvert := false })).accumInvert = true :=
  (bfc_scope_derivation _).2.2.2.2 rfl rfl rfl rfl rfl

end LDraw
